import Mathlib

/-!
Verification of the three-party-preferred visualiser core
(`visualise.py`): the winner resolver `calculate_winner`, the line
clipper `line`, the boundary generator `draw_lines`, and the
configuration validator `validate_args`.

Numbers are embedded as exact rationals.  Python floating-point values
are modelled by `ℚ`; `math.isclose(x, y, abs_tol=t)` is embedded with
its documented semantics `|x - y| ≤ max (rel_tol * max |x| |y|) t`
with the default `rel_tol = 1e-9`.

The Python function `calculate_winner` is recursive and (as proved
below) does not terminate on all inputs, so it is embedded with an
explicit fuel parameter: the outer `Option` is `none` exactly when the
computation does not finish within the given fuel, `some none` is the
Python `None` return (or the `TypeError` raised when a tie result is
subscripted), read by every caller as a tie, and `some (some (p, m))`
is the Python return `(p, m)`.
-/

namespace ThreePP

/-- The three parties of `visualise.py` (`class Party(Enum)`). -/
inductive Party : Type
  | RED : Party
  | GREEN : Party
  | BLUE : Party
deriving DecidableEq, Repr

/-- The configuration namespace `A` of `visualise.py`, restricted to the
fields consumed by the computational core: the six preference-flow
ratios, the sampling granularity `step` (the tolerance is `step/10`)
and the viewport bounds `start`, `stop`. -/
structure Cfg : Type where
  red_to_green : ℚ
  red_to_blue : ℚ
  green_to_red : ℚ
  green_to_blue : ℚ
  blue_to_red : ℚ
  blue_to_green : ℚ
  step : ℚ
  start : ℚ
  stop : ℚ
deriving Repr

/-- Default relative tolerance of `math.isclose` (1e-9). -/
def relTolDefault : ℚ := 1 / 1000000000

/-- `math.isclose(x, y)` semantics:
`abs(x-y) <= max(rel_tol * max(abs(x), abs(y)), abs_tol)`. -/
def isclose (relTol absTol x y : ℚ) : Prop :=
  |x - y| ≤ max (relTol * max |x| |y|) absTol

instance (relTol absTol x y : ℚ) : Decidable (isclose relTol absTol x y) := by
  unfold isclose; infer_instance

/-- The local `eq` of `calculate_winner`:
`math.isclose(x, y, abs_tol=A.step/10.0)`. -/
def eqA (A : Cfg) (x y : ℚ) : Prop :=
  isclose relTolDefault (A.step / 10) x y

/-- The local `lt` of `calculate_winner`: strictly less than, beyond the
tolerance. -/
def ltA (A : Cfg) (x y : ℚ) : Prop :=
  x < y ∧ ¬ eqA A x y

/-- The local `gt` of `calculate_winner`: `gt(x, y) = lt(y, x)`. -/
def gtA (A : Cfg) (x y : ℚ) : Prop :=
  ltA A y x

instance (A : Cfg) (x y : ℚ) : Decidable (eqA A x y) := by
  unfold eqA; infer_instance

instance (A : Cfg) (x y : ℚ) : Decidable (ltA A x y) := by
  unfold ltA; infer_instance

instance (A : Cfg) (x y : ℚ) : Decidable (gtA A x y) := by
  unfold gtA; infer_instance

/-- One Python call frame returns either a win `(party, margin)` or a
tie (`None` return / `TypeError` on subscripting a tie). -/
abbrev WinnerResult : Type := Option (Party × ℚ)

/-- Fuel-indexed results: `none` = the recursion did not finish within
the fuel. -/
abbrev FuelResult : Type := Option WinnerResult

/-- Last tie branch of `calculate_winner` (`visualise.py` lines
134-145): Green and Red tied for third, Blue leading; falling off the
end of the function returns Python `None` (a tie).  The recursive calls
use a casting vote of `A.step/10`. -/
def tie_green_red (recur : ℚ → ℚ → ℚ → FuelResult) (A : Cfg)
    (red_pct green_pct blue_pct : ℚ) : FuelResult :=
  if eqA A green_pct red_pct ∧ ltA A green_pct blue_pct then
    match recur (red_pct + A.step/10) (green_pct - A.step/10) blue_pct,
          recur (red_pct - A.step/10) (green_pct + A.step/10) blue_pct with
    | none, _ => none
    | _, none => none
    | some none, _ => some none
    | some (some (Party.BLUE, _m1)), some none => some none
    | some (some (Party.BLUE, m1)), some (some (Party.BLUE, m2)) =>
        some (some (Party.BLUE, min m1 m2))
    | _, _ => some none
  else some none

/-- Second tie branch (`visualise.py` lines 121-132): Red and Blue tied
for third, Green leading; on fall-through continue to the next tie
branch. -/
def tie_red_blue (recur : ℚ → ℚ → ℚ → FuelResult) (A : Cfg)
    (red_pct green_pct blue_pct : ℚ) : FuelResult :=
  if eqA A red_pct blue_pct ∧ ltA A red_pct green_pct then
    match recur (red_pct - A.step/10) green_pct (blue_pct + A.step/10),
          recur (red_pct + A.step/10) green_pct (blue_pct - A.step/10) with
    | none, _ => none
    | _, none => none
    | some none, _ => some none
    | some (some (Party.GREEN, _m1)), some none => some none
    | some (some (Party.GREEN, m1)), some (some (Party.GREEN, m2)) =>
        some (some (Party.GREEN, min m1 m2))
    | _, _ => tie_green_red recur A red_pct green_pct blue_pct
  else tie_green_red recur A red_pct green_pct blue_pct

/-- First tie branch (`visualise.py` lines 108-119): Green and Blue
tied for third, Red leading.  The `match` mirrors the Python
evaluation: a `None` recursive result makes `gex[0]` / `bex[0]` raise
`TypeError` (a tie), short-circuiting keeps a non-Red `gex` from
touching `bex`, and a failed condition falls through to the next tie
branch. -/
def tie_green_blue (recur : ℚ → ℚ → ℚ → FuelResult) (A : Cfg)
    (red_pct green_pct blue_pct : ℚ) : FuelResult :=
  if eqA A green_pct blue_pct ∧ ltA A green_pct red_pct then
    match recur red_pct (green_pct - A.step/10) (blue_pct + A.step/10),
          recur red_pct (green_pct + A.step/10) (blue_pct - A.step/10) with
    | none, _ => none
    | _, none => none
    | some none, _ => some none
    | some (some (Party.RED, _m1)), some none => some none
    | some (some (Party.RED, m1)), some (some (Party.RED, m2)) =>
        some (some (Party.RED, min m1 m2))
    | _, _ => tie_red_blue recur A red_pct green_pct blue_pct
  else tie_red_blue recur A red_pct green_pct blue_pct

/-- Third strict-third branch (`visualise.py` lines 94-101): Blue came
third. -/
def third_blue (recur : ℚ → ℚ → ℚ → FuelResult) (A : Cfg)
    (red_pct green_pct blue_pct : ℚ) : FuelResult :=
  if ltA A blue_pct green_pct ∧ ltA A blue_pct red_pct then
    if gtA A (red_pct + A.blue_to_red * blue_pct)
             (green_pct + A.blue_to_green * blue_pct) then
      some (some (Party.RED, red_pct + A.blue_to_red * blue_pct))
    else if gtA A (green_pct + A.blue_to_green * blue_pct)
                  (red_pct + A.blue_to_red * blue_pct) then
      some (some (Party.GREEN, green_pct + A.blue_to_green * blue_pct))
    else tie_green_blue recur A red_pct green_pct blue_pct
  else tie_green_blue recur A red_pct green_pct blue_pct

/-- Second strict-third branch (`visualise.py` lines 86-93): Green came
third. -/
def third_green (recur : ℚ → ℚ → ℚ → FuelResult) (A : Cfg)
    (red_pct green_pct blue_pct : ℚ) : FuelResult :=
  if ltA A green_pct red_pct ∧ ltA A green_pct blue_pct then
    if gtA A (red_pct + A.green_to_red * green_pct)
             (blue_pct + A.green_to_blue * green_pct) then
      some (some (Party.RED, red_pct + A.green_to_red * green_pct))
    else if gtA A (blue_pct + A.green_to_blue * green_pct)
                  (red_pct + A.green_to_red * green_pct) then
      some (some (Party.BLUE, blue_pct + A.green_to_blue * green_pct))
    else third_blue recur A red_pct green_pct blue_pct
  else third_blue recur A red_pct green_pct blue_pct

/-- First strict-third branch (`visualise.py` lines 78-85): Red came
third. -/
def third_red (recur : ℚ → ℚ → ℚ → FuelResult) (A : Cfg)
    (red_pct green_pct blue_pct : ℚ) : FuelResult :=
  if ltA A red_pct green_pct ∧ ltA A red_pct blue_pct then
    if gtA A (green_pct + A.red_to_green * red_pct)
             (blue_pct + A.red_to_blue * red_pct) then
      some (some (Party.GREEN, green_pct + A.red_to_green * red_pct))
    else if gtA A (blue_pct + A.red_to_blue * red_pct)
                  (green_pct + A.red_to_green * red_pct) then
      some (some (Party.BLUE, blue_pct + A.red_to_blue * red_pct))
    else third_green recur A red_pct green_pct blue_pct
  else third_green recur A red_pct green_pct blue_pct

/-- `calculate_winner(red_pct, green_pct, blue_pct, A)` of
`visualise.py`, with explicit fuel for the casting-vote recursion.  The
chained branch functions reproduce the top-to-bottom fall-through of
the Python `if` statements. -/
def calculate_winner : ℕ → Cfg → ℚ → ℚ → ℚ → FuelResult
  | 0, _, _, _, _ => none
  | n + 1, A, red_pct, green_pct, blue_pct =>
      third_red (calculate_winner n A) A red_pct green_pct blue_pct


/-! ### Line clipper and boundary generator -/

/-- `clamp_val(val, lo, hi)` of `visualise.py`. -/
def clamp_val (val lo hi : ℚ) : ℚ := max (min val hi) lo

/-- `clamp(val, A)`: constrain `val` to `[A.start, A.stop]`. -/
def clamp (A : Cfg) (val : ℚ) : ℚ := clamp_val val A.start A.stop

/-- `math.isclose(x, y)` with default tolerances (`rel_tol=1e-9`,
`abs_tol=0`), used by `line` for the degenerate-segment tests. -/
def iscloseDefault (x y : ℚ) : Prop := isclose relTolDefault 0 x y

instance (x y : ℚ) : Decidable (iscloseDefault x y) := by
  unfold iscloseDefault; infer_instance

/-- `line(x0, y0, x1, y1, A)` of `visualise.py`, at the level of the
clipped percentage-space endpoints; the final `p2c` conversion and SVG
path string are rendering and out of scope.  `none` is the empty-string
return.  The test `x0 > A.stop` in the recomputation of the second
endpoint's `y` is the source's own (line 234). -/
def line (A : Cfg) (x0 y0 x1 y1 : ℚ) : Option ((ℚ × ℚ) × (ℚ × ℚ)) :=
  if iscloseDefault x0 x1 then
    some ((clamp A x0, clamp A y0), (clamp A x1, clamp A y1))
  else if iscloseDefault y0 y1 then
    some ((clamp A x0, clamp A y0), (clamp A x1, clamp A y1))
  else if (x0 ≤ A.start ∧ x1 ≤ A.start) ∨ (y0 ≤ A.start ∧ y1 ≤ A.start) ∨
          (x0 ≥ A.stop ∧ x1 ≥ A.stop) ∨ (y0 ≥ A.stop ∧ y1 ≥ A.stop) then
    none
  else
    some
      ((if y0 < A.start then (A.start - (y0 - (y1 - y0)/(x1 - x0) * x0)) / ((y1 - y0)/(x1 - x0))
        else if y0 > A.stop then (A.stop - (y0 - (y1 - y0)/(x1 - x0) * x0)) / ((y1 - y0)/(x1 - x0))
        else clamp A x0,
        if x0 < A.start then (y1 - y0)/(x1 - x0) * A.start + (y0 - (y1 - y0)/(x1 - x0) * x0)
        else if x0 > A.stop then (y1 - y0)/(x1 - x0) * A.stop + (y0 - (y1 - y0)/(x1 - x0) * x0)
        else clamp A y0),
       (if y1 < A.start then (A.start - (y0 - (y1 - y0)/(x1 - x0) * x0)) / ((y1 - y0)/(x1 - x0))
        else if y1 > A.stop then (A.stop - (y0 - (y1 - y0)/(x1 - x0) * x0)) / ((y1 - y0)/(x1 - x0))
        else clamp A x1,
        if x1 < A.start then (y1 - y0)/(x1 - x0) * A.start + (y0 - (y1 - y0)/(x1 - x0) * x0)
        else if x0 > A.stop then (y1 - y0)/(x1 - x0) * A.stop + (y0 - (y1 - y0)/(x1 - x0) * x0)
        else clamp A y1))

/-- The output of `draw_lines`: the three flow-dependent boundary
polylines (each two clipped segments) and the unconditional diagonal,
kept in percentage space (`p2c` and the path string are rendering). -/
structure BoundaryLines : Type where
  red_green : List (Option ((ℚ × ℚ) × (ℚ × ℚ)))
  red_blue : List (Option ((ℚ × ℚ) × (ℚ × ℚ)))
  blue_green : List (Option ((ℚ × ℚ) × (ℚ × ℚ)))
  top_right : (ℚ × ℚ) × (ℚ × ℚ)
deriving Repr

/-- Point #1 of `draw_lines`: the Green vs Red point on the Y axis. -/
def point1 (A : Cfg) : ℚ × ℚ :=
  (A.start, ((1 - A.start) + (A.blue_to_red - A.blue_to_green) * A.start) / 2)

/-- Point #2 of `draw_lines`: the Green vs Red midpoint, with the
correction branch when Blue favours Green (`a2 < 0`). -/
def point2 (A : Cfg) : ℚ × ℚ :=
  if A.blue_to_red - A.blue_to_green < 0 then
    (1 / (3 - (A.blue_to_red - A.blue_to_green)),
     1 / (3 - (A.blue_to_red - A.blue_to_green)))
  else
    (1 / ((A.blue_to_red - A.blue_to_green) + 3),
     ((A.blue_to_red - A.blue_to_green) + 1) / ((A.blue_to_red - A.blue_to_green) + 3))

/-- Point #3 of `draw_lines`: the terpoint (1/3, 1/3). -/
def point3 : ℚ × ℚ := (1/3, 1/3)

/-- Point #4 of `draw_lines`: the Red vs Blue midpoint, with the
correction branch when `a4 < 0`. -/
def point4 (A : Cfg) : ℚ × ℚ :=
  if A.green_to_red - A.green_to_blue < 0 then
    (1 / (3 - (A.green_to_red - A.green_to_blue)),
     1 / (3 - (A.green_to_red - A.green_to_blue)))
  else
    (((A.green_to_red - A.green_to_blue) + 1) / ((A.green_to_red - A.green_to_blue) + 3),
     1 / ((A.green_to_red - A.green_to_blue) + 3))

/-- Point #5 of `draw_lines`: Red vs Blue on the X axis. -/
def point5 (A : Cfg) : ℚ × ℚ :=
  (((1 - A.start) + (A.green_to_red - A.green_to_blue) * A.start) / 2, A.start)

/-- Point #6 of `draw_lines`: the Blue vs Green point, three-way case
split on `a6 = red_to_blue - red_to_green`. -/
def point6 (A : Cfg) : ℚ × ℚ :=
  if A.red_to_blue - A.red_to_green = 0 then (1/3, 1/3)
  else if A.red_to_blue - A.red_to_green > 0 then
    (1 / ((A.red_to_blue - A.red_to_green) + 3),
     ((A.red_to_blue - A.red_to_green) + 1) / ((A.red_to_blue - A.red_to_green) + 3))
  else
    (((A.red_to_blue - A.red_to_green) - 1) / ((A.red_to_blue - A.red_to_green) - 3),
     1 / (3 - (A.red_to_blue - A.red_to_green)))

/-- Point #7 of `draw_lines`: the hapoint (1/2, 1/2). -/
def point7 : ℚ × ℚ := (1/2, 1/2)

/-- `draw_lines(A)` of `visualise.py` (lines 254-368): the three
boundary polylines through points #1-#2-#3, #3-#4-#5 and #3-#6-#7,
each segment clipped by `line`, plus the unconditional diagonal from
`(1-stop, stop)` to `(stop, 1-stop)`. -/
def draw_lines (A : Cfg) : BoundaryLines :=
  { red_green := [line A (point1 A).1 (point1 A).2 (point2 A).1 (point2 A).2,
                  line A (point2 A).1 (point2 A).2 point3.1 point3.2]
    red_blue := [line A point3.1 point3.2 (point4 A).1 (point4 A).2,
                 line A (point4 A).1 (point4 A).2 (point5 A).1 (point5 A).2]
    blue_green := [line A point3.1 point3.2 (point6 A).1 (point6 A).2,
                   line A (point6 A).1 (point6 A).2 point7.1 point7.2]
    top_right := ((1 - A.stop, A.stop), (A.stop, 1 - A.stop)) }

/-! ### Configuration validation -/

/-- `validate_args(A)` of `visualise.py` (lines 553-595), restricted to
the core fields (the pixel-size fields `inner_width`, `width`, `radius`
are rendering).  Clamps `step`, `start`, `stop`, clamps each flow ratio
into `[0,1]`, then normalises each source party's pair when its sum
exceeds 1. -/
def validate_args (A : Cfg) : Cfg :=
  let step2 := max (min |A.step| (5/100)) (2/1000)
  let start2 := max (min |A.start| (1/2 - 10 * step2)) 0
  let stop2 := min |A.stop| (1 - start2)
  let g2r := max (min |A.green_to_red| 1) 0
  let r2g := max (min |A.red_to_green| 1) 0
  let b2r := max (min |A.blue_to_red| 1) 0
  let g2b := max (min |A.green_to_blue| 1) 0
  let r2b := max (min |A.red_to_blue| 1) 0
  let b2g := max (min |A.blue_to_green| 1) 0
  { red_to_green := if r2g + r2b > 1 then r2g / (r2g + r2b) else r2g
    red_to_blue := if r2g + r2b > 1 then r2b / (r2g + r2b) else r2b
    green_to_red := if g2r + g2b > 1 then g2r / (g2r + g2b) else g2r
    green_to_blue := if g2r + g2b > 1 then g2b / (g2r + g2b) else g2b
    blue_to_red := if b2g + b2r > 1 then b2r / (b2g + b2r) else b2r
    blue_to_green := if b2g + b2r > 1 then b2g / (b2g + b2r) else b2g
    step := step2
    start := start2
    stop := stop2 }

/-! ### Spec-side definitions for the casting-vote claim -/

/-- From the spec's words (section 4.1, step 3): accept the leading
party only if it wins under both perturbed exclusion orders, with the
tighter of the two margins; otherwise a tie. -/
def castingVote (leader : Party) (exclFirst exclSecond : WinnerResult) :
    WinnerResult :=
  match exclFirst, exclSecond with
  | some (p1, m1), some (p2, m2) =>
      if p1 = leader ∧ p2 = leader then some (leader, min m1 m2) else none
  | _, _ => none

/-- From the spec's words (section 4.1, steps 1-2): the non-recursive
strict-third resolution that the claim says each perturbed
recomputation performs. -/
def resolve_steps_one_two (A : Cfg) (r g b : ℚ) : WinnerResult :=
  if ltA A r g ∧ ltA A r b then
    if gtA A (g + A.red_to_green * r) (b + A.red_to_blue * r) then
      some (Party.GREEN, g + A.red_to_green * r)
    else if gtA A (b + A.red_to_blue * r) (g + A.red_to_green * r) then
      some (Party.BLUE, b + A.red_to_blue * r)
    else none
  else if ltA A g r ∧ ltA A g b then
    if gtA A (r + A.green_to_red * g) (b + A.green_to_blue * g) then
      some (Party.RED, r + A.green_to_red * g)
    else if gtA A (b + A.green_to_blue * g) (r + A.green_to_red * g) then
      some (Party.BLUE, b + A.green_to_blue * g)
    else none
  else if ltA A b g ∧ ltA A b r then
    if gtA A (r + A.blue_to_red * b) (g + A.blue_to_green * b) then
      some (Party.RED, r + A.blue_to_red * b)
    else if gtA A (g + A.blue_to_green * b) (r + A.blue_to_red * b) then
      some (Party.GREEN, g + A.blue_to_green * b)
    else none
  else none

/-! ### Party relabelings -/

/-- The six consistent relabelings of the three parties. -/
inductive P3 : Type
  | idp : P3
  | sgb : P3
  | srg : P3
  | srb : P3
  | cyc : P3
  | cyc2 : P3
deriving DecidableEq, Repr

/-- Action of a relabeling on a party. -/
def permParty : P3 → Party → Party
  | .idp, q => q
  | .sgb, .RED => .RED
  | .sgb, .GREEN => .BLUE
  | .sgb, .BLUE => .GREEN
  | .srg, .RED => .GREEN
  | .srg, .GREEN => .RED
  | .srg, .BLUE => .BLUE
  | .srb, .RED => .BLUE
  | .srb, .GREEN => .GREEN
  | .srb, .BLUE => .RED
  | .cyc, .RED => .GREEN
  | .cyc, .GREEN => .BLUE
  | .cyc, .BLUE => .RED
  | .cyc2, .RED => .BLUE
  | .cyc2, .GREEN => .RED
  | .cyc2, .BLUE => .GREEN

/-- Action on a share triple: the new share of party `x` is the old
share of the party relabeled to `x`. -/
def permShares : P3 → ℚ → ℚ → ℚ → ℚ × ℚ × ℚ
  | .idp, r, g, b => (r, g, b)
  | .sgb, r, g, b => (r, b, g)
  | .srg, r, g, b => (g, r, b)
  | .srb, r, g, b => (b, g, r)
  | .cyc, r, g, b => (b, r, g)
  | .cyc2, r, g, b => (g, b, r)

/-- Action on the flow configuration: the new flow from `x` to `y` is
the old flow between the parties relabeled to `x` and `y`; `step`,
`start`, `stop` are unchanged. -/
def permCfg : P3 → Cfg → Cfg
  | .idp, A => A
  | .sgb, A =>
      { A with
        red_to_green := A.red_to_blue, red_to_blue := A.red_to_green
        green_to_red := A.blue_to_red, green_to_blue := A.blue_to_green
        blue_to_red := A.green_to_red, blue_to_green := A.green_to_blue }
  | .srg, A =>
      { A with
        red_to_green := A.green_to_red, red_to_blue := A.green_to_blue
        green_to_red := A.red_to_green, green_to_blue := A.red_to_blue
        blue_to_red := A.blue_to_green, blue_to_green := A.blue_to_red }
  | .srb, A =>
      { A with
        red_to_green := A.blue_to_green, red_to_blue := A.blue_to_red
        green_to_red := A.green_to_blue, green_to_blue := A.green_to_red
        blue_to_red := A.red_to_blue, blue_to_green := A.red_to_green }
  | .cyc, A =>
      { A with
        red_to_green := A.blue_to_red, red_to_blue := A.blue_to_green
        green_to_red := A.red_to_blue, green_to_blue := A.red_to_green
        blue_to_red := A.green_to_blue, blue_to_green := A.green_to_red }
  | .cyc2, A =>
      { A with
        red_to_green := A.green_to_blue, red_to_blue := A.green_to_red
        green_to_red := A.blue_to_green, green_to_blue := A.blue_to_red
        blue_to_red := A.red_to_green, blue_to_green := A.red_to_blue }




/-- Some party is strictly (beyond tolerance) third. -/
def StrictThird (A : Cfg) (r g b : ℚ) : Prop :=
  (ltA A r g ∧ ltA A r b) ∨ (ltA A g r ∧ ltA A g b) ∨ (ltA A b g ∧ ltA A b r)



/-- The two-candidate endgame shared by the three strict-third
branches: first survivor wins if its total is strictly greater beyond
tolerance, then the second, else the call falls through to a tie. -/
def direct2cp (A : Cfg) (pa pb : Party) (ta tb : ℚ) : FuelResult :=
  if gtA A ta tb then some (some (pa, ta))
  else if gtA A tb ta then some (some (pb, tb))
  else some none

/-- The default configuration of `get_args`/`validate_args`:
flows red→green 0.8, red→blue 0.2, green→red 0.8, green→blue 0.2,
blue→red 0.7, blue→green 0.3; step 0.01 (tolerance 0.001); viewport
start 0.2, stop 0.6. -/
def cfg0 : Cfg :=
  { red_to_green := 8/10, red_to_blue := 2/10
    green_to_red := 8/10, green_to_blue := 2/10
    blue_to_red := 7/10, blue_to_green := 3/10
    step := 1/100, start := 1/5, stop := 3/5 }

/-- A valid configuration whose red outflows sum to strictly less than
one (all red preferences exhaust). -/
def cfgExhaust : Cfg := { cfg0 with red_to_green := 0, red_to_blue := 0 }

/-- A valid configuration whose red outflows split evenly. -/
def cfgEven : Cfg := { cfg0 with red_to_green := 1/2, red_to_blue := 1/2 }

/-- The default flows with the step 0.00244140625 = 10·2⁻¹²; its
tolerance `step/10 = 2⁻¹²` is an exact binary float, so the knife-edge
inputs below behave identically in IEEE double arithmetic. -/
def cfgDyadic : Cfg := { cfg0 with step := 5/2048 }

/-- Flow-ratio hypotheses of the amended margin claim: every ratio is
nonnegative and each source party's outgoing pair sums to exactly 1
(complementary mode: no exhausted preferences). -/
def ValidFlows (A : Cfg) : Prop :=
  0 ≤ A.red_to_green ∧ 0 ≤ A.red_to_blue ∧
  0 ≤ A.green_to_red ∧ 0 ≤ A.green_to_blue ∧
  0 ≤ A.blue_to_red ∧ 0 ≤ A.blue_to_green ∧
  A.red_to_green + A.red_to_blue = 1 ∧
  A.green_to_red + A.green_to_blue = 1 ∧
  A.blue_to_red + A.blue_to_green = 1

/-- The step range guaranteed by `validate_args` (clamped into
`[0.002, 0.05]`). -/
def StepOK (A : Cfg) : Prop := 1/500 ≤ A.step ∧ A.step ≤ 1/20

/-- Invariant carried through the casting-vote recursion: the shares
sum to 1 and none exceeds 1 (perturbed shares may dip slightly below
0, so no lower bound is kept). -/
def Inv (r g b : ℚ) : Prop := r + g + b = 1 ∧ r ≤ 1 ∧ g ≤ 1 ∧ b ≤ 1

/-- Margin postcondition: any win carries a margin in (1/2, 1]. -/
def ResOK (res : FuelResult) : Prop :=
  ∀ p m, res = some (some (p, m)) → 1/2 < m ∧ m ≤ 1

/-- The embedded recursion runs out of any amount of fuel: the Python
original never returns on this input. -/
def Diverges (A : Cfg) (r g b : ℚ) : Prop :=
  ∀ n, calculate_winner n A r g b = none

/-- A percentage-space point lies inside the viewport square. -/
def inViewport (A : Cfg) (q : ℚ × ℚ) : Prop :=
  A.start ≤ q.1 ∧ q.1 ≤ A.stop ∧ A.start ≤ q.2 ∧ q.2 ≤ A.stop

/-- A clipped segment is non-empty and both endpoints lie inside the
viewport. -/
def segOK (A : Cfg) (s : Option ((ℚ × ℚ) × (ℚ × ℚ))) : Prop :=
  ∃ pq, s = some pq ∧ inViewport A pq.1 ∧ inViewport A pq.2

lemma calculate_winner_succ (n : ℕ) (A : Cfg) (r g b : ℚ) :
    calculate_winner (n + 1) A r g b =
      third_red (calculate_winner n A) A r g b := rfl

/-! ### Basic facts about the tolerance comparisons -/

lemma isclose_symm {relTol absTol x y : ℚ} (h : isclose relTol absTol x y) :
    isclose relTol absTol y x := by
  unfold isclose at h ⊢
  rwa [abs_sub_comm, max_comm |y| |x|]

lemma eqA_symm {A : Cfg} {x y : ℚ} (h : eqA A x y) : eqA A y x :=
  isclose_symm h

lemma eqA_of_close {A : Cfg} {x y : ℚ} (h1 : x - y ≤ A.step / 10)
    (h2 : y - x ≤ A.step / 10) : eqA A x y := by
  unfold eqA isclose
  exact le_max_of_le_right (abs_sub_le_iff.mpr ⟨h1, h2⟩)

lemma abs_le_of_bounds {x c : ℚ} (h1 : -c ≤ x) (h2 : x ≤ c) : |x| ≤ c :=
  abs_le.mpr ⟨h1, h2⟩

/-- For values of magnitude at most 2 and a step at least 1/500 (the
lower clamp of `validate_args`), the relative-tolerance arm of
`isclose` is dominated by the absolute tolerance. -/
lemma relArm_le {A : Cfg} {x y : ℚ} (hs : 1/500 ≤ A.step)
    (hx : |x| ≤ 2) (hy : |y| ≤ 2) :
    relTolDefault * max |x| |y| ≤ A.step / 10 := by
  have hm : max |x| |y| ≤ 2 := max_le hx hy
  have h0 : relTolDefault * max |x| |y| ≤ relTolDefault * 2 := by
    have : (0:ℚ) ≤ relTolDefault := by norm_num [relTolDefault]
    exact mul_le_mul_of_nonneg_left hm this
  calc relTolDefault * max |x| |y| ≤ relTolDefault * 2 := h0
    _ ≤ 1/500/10 := by norm_num [relTolDefault]
    _ ≤ A.step / 10 := by linarith

lemma eqA_abs_le {A : Cfg} {x y : ℚ} (hs : 1/500 ≤ A.step)
    (hx : |x| ≤ 2) (hy : |y| ≤ 2) (h : eqA A x y) :
    |x - y| ≤ A.step / 10 := by
  unfold eqA isclose at h
  rwa [max_eq_right (relArm_le hs hx hy)] at h

lemma not_eqA_of_gap {A : Cfg} {x y : ℚ} (hs : 1/500 ≤ A.step)
    (hx : |x| ≤ 2) (hy : |y| ≤ 2) (h : A.step / 10 < |x - y|) :
    ¬ eqA A x y := by
  intro hc
  exact absurd (eqA_abs_le hs hx hy hc) (not_le.mpr h)

/-- `lt` always forces a gap wider than the absolute tolerance, with no
magnitude assumptions (the `max` is at least the absolute arm). -/
lemma ltA_gap {A : Cfg} {x y : ℚ} (h : ltA A x y) : A.step / 10 < y - x := by
  rcases h with ⟨hlt, hne⟩
  by_contra hc
  push_neg at hc
  exact hne (eqA_of_close (by linarith) hc)

lemma ltA_num {A : Cfg} {x y : ℚ} (hs : 1/500 ≤ A.step)
    (hgap : A.step / 10 < y - x)
    (hx1 : -2 ≤ x) (hx2 : x ≤ 2) (hy1 : -2 ≤ y) (hy2 : y ≤ 2) :
    ltA A x y := by
  have hstep : (0:ℚ) < A.step / 10 := by linarith
  refine ⟨by linarith, ?_⟩
  apply not_eqA_of_gap hs (abs_le_of_bounds hx1 hx2) (abs_le_of_bounds hy1 hy2)
  calc A.step / 10 < y - x := hgap
    _ ≤ |y - x| := le_abs_self _
    _ = |x - y| := abs_sub_comm _ _

lemma gtA_num {A : Cfg} {x y : ℚ} (hs : 1/500 ≤ A.step)
    (hgap : A.step / 10 < x - y)
    (hx1 : -2 ≤ x) (hx2 : x ≤ 2) (hy1 : -2 ≤ y) (hy2 : y ≤ 2) :
    gtA A x y :=
  ltA_num hs hgap hy1 hy2 hx1 hx2

lemma not_ltA_of_ge {A : Cfg} {x y : ℚ} (h : y ≤ x) : ¬ ltA A x y :=
  fun hc => absurd hc.1 (not_lt.mpr h)

lemma not_ltA_of_close {A : Cfg} {x y : ℚ} (h1 : x - y ≤ A.step / 10)
    (h2 : y - x ≤ A.step / 10) : ¬ ltA A x y :=
  fun hc => hc.2 (eqA_of_close h1 h2)

lemma not_gtA_of_le {A : Cfg} {x y : ℚ} (h : x ≤ y) : ¬ gtA A x y :=
  not_ltA_of_ge h

lemma not_gtA_of_close {A : Cfg} {x y : ℚ} (h1 : x - y ≤ A.step / 10)
    (h2 : y - x ≤ A.step / 10) : ¬ gtA A x y :=
  not_ltA_of_close h2 h1

lemma not_eqA_of_ltA {A : Cfg} {x y : ℚ} (h : ltA A x y) : ¬ eqA A x y := h.2

lemma not_ltA_of_ltA {A : Cfg} {x y : ℚ} (h : ltA A x y) : ¬ ltA A y x :=
  not_ltA_of_ge (le_of_lt h.1)

lemma not_gtA_of_gtA {A : Cfg} {x y : ℚ} (h : gtA A x y) : ¬ gtA A y x :=
  not_ltA_of_ltA h

lemma not_gtA_of_eqA {A : Cfg} {x y : ℚ} (h : eqA A x y) : ¬ gtA A x y :=
  fun hc => hc.2 (eqA_symm h)

lemma not_gtA_of_eqA' {A : Cfg} {x y : ℚ} (h : eqA A x y) : ¬ gtA A y x :=
  fun hc => hc.2 h

lemma permCfg_step (p : P3) (A : Cfg) : (permCfg p A).step = A.step := by
  cases p <;> rfl

lemma eqA_permCfg {p : P3} {A : Cfg} {x y : ℚ} (h : eqA A x y) :
    eqA (permCfg p A) x y := by
  unfold eqA
  rw [permCfg_step]
  exact h

lemma ltA_permCfg {p : P3} {A : Cfg} {x y : ℚ} (h : ltA A x y) :
    ltA (permCfg p A) x y := by
  unfold ltA eqA
  rw [permCfg_step]
  exact h

lemma direct2cp_swap (A : Cfg) (pa pb : Party) (ta tb : ℚ) :
    direct2cp A pa pb ta tb = direct2cp A pb pa tb ta := by
  unfold direct2cp
  by_cases h1 : gtA A ta tb
  · rw [if_pos h1, if_neg (not_gtA_of_gtA h1), if_pos h1]
  · by_cases h2 : gtA A tb ta
    · rw [if_neg h1, if_pos h2, if_pos h2]
    · rw [if_neg h1, if_neg h2, if_neg h2, if_neg h1]

lemma direct2cp_map (A : Cfg) (f : Party → Party) (pa pb : Party) (ta tb : ℚ) :
    Option.map (Option.map (fun w => (f w.1, w.2))) (direct2cp A pa pb ta tb) =
      direct2cp A (f pa) (f pb) ta tb := by
  unfold direct2cp
  split_ifs <;> rfl


/-! ### Branch-level evaluation lemmas

When one party is strictly third, `calculate_winner` reduces to a
single two-candidate comparison; the lemmas below capture that and the
fall-through to a `None` return when no later branch can fire. -/


lemma tie_green_red_none {recur : ℚ → ℚ → ℚ → FuelResult} {A : Cfg}
    {r g b : ℚ} (h : ¬ (eqA A g r ∧ ltA A g b)) :
    tie_green_red recur A r g b = some none := by
  unfold tie_green_red
  rw [if_neg h]

lemma tie_red_blue_none {recur : ℚ → ℚ → ℚ → FuelResult} {A : Cfg}
    {r g b : ℚ} (h1 : ¬ (eqA A r b ∧ ltA A r g))
    (h2 : ¬ (eqA A g r ∧ ltA A g b)) :
    tie_red_blue recur A r g b = some none := by
  unfold tie_red_blue
  rw [if_neg h1, tie_green_red_none h2]

lemma tie_green_blue_none {recur : ℚ → ℚ → ℚ → FuelResult} {A : Cfg}
    {r g b : ℚ} (h0 : ¬ (eqA A g b ∧ ltA A g r))
    (h1 : ¬ (eqA A r b ∧ ltA A r g)) (h2 : ¬ (eqA A g r ∧ ltA A g b)) :
    tie_green_blue recur A r g b = some none := by
  unfold tie_green_blue
  rw [if_neg h0, tie_red_blue_none h1 h2]

/-- With Red strictly third, every branch after the Red-third block is
dead. -/
lemma after_red_third {recur : ℚ → ℚ → ℚ → FuelResult} {A : Cfg}
    {r g b : ℚ} (h1 : ltA A r g) (h2 : ltA A r b) :
    third_green recur A r g b = some none := by
  unfold third_green third_blue
  rw [if_neg (fun hc => (not_ltA_of_ltA h1) hc.1),
      if_neg (fun hc => (not_ltA_of_ltA h2) hc.2)]
  refine tie_green_blue_none ?_ ?_ ?_
  · exact fun hc => (not_ltA_of_ltA h1) hc.2
  · exact fun hc => (not_eqA_of_ltA h2) hc.1
  · exact fun hc => (not_eqA_of_ltA h1) (eqA_symm hc.1)

lemma third_red_eval {n : ℕ} {A : Cfg} {r g b : ℚ}
    (h1 : ltA A r g) (h2 : ltA A r b) :
    calculate_winner (n + 1) A r g b =
      direct2cp A Party.GREEN Party.BLUE
        (g + A.red_to_green * r) (b + A.red_to_blue * r) := by
  rw [calculate_winner_succ]
  unfold third_red direct2cp
  rw [if_pos ⟨h1, h2⟩]
  by_cases hg1 : gtA A (g + A.red_to_green * r) (b + A.red_to_blue * r)
  · rw [if_pos hg1, if_pos hg1]
  · rw [if_neg hg1, if_neg hg1]
    by_cases hg2 : gtA A (b + A.red_to_blue * r) (g + A.red_to_green * r)
    · rw [if_pos hg2, if_pos hg2]
    · rw [if_neg hg2, if_neg hg2, after_red_third h1 h2]

/-- With Green strictly third, every branch after the Green-third block
is dead. -/
lemma after_green_third {recur : ℚ → ℚ → ℚ → FuelResult} {A : Cfg}
    {r g b : ℚ} (h1 : ltA A g r) (h2 : ltA A g b) :
    third_blue recur A r g b = some none := by
  unfold third_blue
  rw [if_neg (fun hc => (not_ltA_of_ltA h2) hc.1)]
  refine tie_green_blue_none ?_ ?_ ?_
  · exact fun hc => (not_eqA_of_ltA h2) hc.1
  · exact fun hc => (not_ltA_of_ltA h1) hc.2
  · exact fun hc => (not_eqA_of_ltA h1) hc.1

lemma third_green_eval {n : ℕ} {A : Cfg} {r g b : ℚ}
    (h1 : ltA A g r) (h2 : ltA A g b) :
    calculate_winner (n + 1) A r g b =
      direct2cp A Party.RED Party.BLUE
        (r + A.green_to_red * g) (b + A.green_to_blue * g) := by
  rw [calculate_winner_succ]
  unfold third_red third_green direct2cp
  rw [if_neg (fun hc => (not_ltA_of_ltA h1) hc.1), if_pos ⟨h1, h2⟩]
  by_cases hg1 : gtA A (r + A.green_to_red * g) (b + A.green_to_blue * g)
  · rw [if_pos hg1, if_pos hg1]
  · rw [if_neg hg1, if_neg hg1]
    by_cases hg2 : gtA A (b + A.green_to_blue * g) (r + A.green_to_red * g)
    · rw [if_pos hg2, if_pos hg2]
    · rw [if_neg hg2, if_neg hg2, after_green_third h1 h2]

/-- With Blue strictly third, every tie branch is dead. -/
lemma after_blue_third {recur : ℚ → ℚ → ℚ → FuelResult} {A : Cfg}
    {r g b : ℚ} (h1 : ltA A b g) (h2 : ltA A b r) :
    tie_green_blue recur A r g b = some none := by
  refine tie_green_blue_none ?_ ?_ ?_
  · exact fun hc => (not_eqA_of_ltA h1) (eqA_symm hc.1)
  · exact fun hc => (not_eqA_of_ltA h2) (eqA_symm hc.1)
  · exact fun hc => (not_ltA_of_ltA h1) hc.2

lemma third_blue_eval {n : ℕ} {A : Cfg} {r g b : ℚ}
    (h1 : ltA A b g) (h2 : ltA A b r) :
    calculate_winner (n + 1) A r g b =
      direct2cp A Party.RED Party.GREEN
        (r + A.blue_to_red * b) (g + A.blue_to_green * b) := by
  rw [calculate_winner_succ]
  unfold third_red third_green third_blue direct2cp
  rw [if_neg (fun hc => (not_ltA_of_ltA h2) hc.2),
      if_neg (fun hc => (not_ltA_of_ltA h1) hc.2), if_pos ⟨h1, h2⟩]
  by_cases hg1 : gtA A (r + A.blue_to_red * b) (g + A.blue_to_green * b)
  · rw [if_pos hg1, if_pos hg1]
  · rw [if_neg hg1, if_neg hg1]
    by_cases hg2 : gtA A (g + A.blue_to_green * b) (r + A.blue_to_red * b)
    · rw [if_pos hg2, if_pos hg2]
    · rw [if_neg hg2, if_neg hg2, after_blue_third h1 h2]

/-- With Green and Blue tied for third and Red strictly leading (over
the green share, as the code tests), `calculate_winner` reduces to the
first casting-vote block with a `None` fall-through. -/
lemma tie_green_blue_eval {n : ℕ} {A : Cfg} {r g b : ℚ}
    (h1 : eqA A g b) (h2 : ltA A g r) :
    calculate_winner (n + 1) A r g b =
      match calculate_winner n A r (g - A.step/10) (b + A.step/10),
            calculate_winner n A r (g + A.step/10) (b - A.step/10) with
      | none, _ => none
      | _, none => none
      | some none, _ => some none
      | some (some (Party.RED, _)), some none => some none
      | some (some (Party.RED, m1)), some (some (Party.RED, m2)) =>
          some (some (Party.RED, min m1 m2))
      | _, _ => some none := by
  rw [calculate_winner_succ]
  unfold third_red third_green third_blue tie_green_blue
  rw [if_neg (fun hc => (not_ltA_of_ltA h2) hc.1),
      if_neg (fun hc => hc.2.2 h1),
      if_neg (fun hc => hc.1.2 (eqA_symm h1)),
      if_pos ⟨h1, h2⟩]
  have hdead : ∀ recur : ℚ → ℚ → ℚ → FuelResult,
      tie_red_blue recur A r g b = some none := by
    intro recur
    refine tie_red_blue_none ?_ ?_
    · exact fun hc => (not_ltA_of_ltA h2) hc.2
    · exact fun hc => (not_eqA_of_ltA h2) hc.1
  rcases calculate_winner n A r (g - A.step/10) (b + A.step/10) with _ | (_ | ⟨p1, m1⟩) <;>
    rcases calculate_winner n A r (g + A.step/10) (b - A.step/10) with _ | (_ | ⟨p2, m2⟩) <;>
    first
      | rfl
      | (cases p1 <;> first | rfl | exact hdead _)
      | (cases p1 <;> cases p2 <;> first | rfl | exact hdead _)

/-- With Red and Blue tied for third and Green strictly leading (over
the red share, as the code tests), `calculate_winner` reduces to the
second casting-vote block with a `None` fall-through. -/
lemma tie_red_blue_eval {n : ℕ} {A : Cfg} {r g b : ℚ}
    (h1 : eqA A r b) (h2 : ltA A r g) :
    calculate_winner (n + 1) A r g b =
      match calculate_winner n A (r - A.step/10) g (b + A.step/10),
            calculate_winner n A (r + A.step/10) g (b - A.step/10) with
      | none, _ => none
      | _, none => none
      | some none, _ => some none
      | some (some (Party.GREEN, _)), some none => some none
      | some (some (Party.GREEN, m1)), some (some (Party.GREEN, m2)) =>
          some (some (Party.GREEN, min m1 m2))
      | _, _ => some none := by
  rw [calculate_winner_succ]
  unfold third_red third_green third_blue tie_green_blue tie_red_blue
  rw [if_neg (fun hc => (not_eqA_of_ltA hc.2) h1),
      if_neg (fun hc => (not_ltA_of_ltA h2) hc.1),
      if_neg (fun hc => (not_eqA_of_ltA hc.2) (eqA_symm h1)),
      if_neg (fun hc => (not_ltA_of_ltA h2) hc.2),
      if_pos ⟨h1, h2⟩]
  have hdead : ∀ recur : ℚ → ℚ → ℚ → FuelResult,
      tie_green_red recur A r g b = some none := by
    intro recur
    exact tie_green_red_none (fun hc => (not_eqA_of_ltA h2) (eqA_symm hc.1))
  rcases calculate_winner n A (r - A.step/10) g (b + A.step/10) with _ | (_ | ⟨p1, m1⟩) <;>
    rcases calculate_winner n A (r + A.step/10) g (b - A.step/10) with _ | (_ | ⟨p2, m2⟩) <;>
    first
      | rfl
      | (cases p1 <;> first | rfl | exact hdead _)
      | (cases p1 <;> cases p2 <;> first | rfl | exact hdead _)

/-- With Green and Red tied for third and Blue strictly leading (over
the green share, as the code tests), `calculate_winner` reduces to the
third casting-vote block; falling off the end is a `None` return. -/
lemma tie_green_red_eval {n : ℕ} {A : Cfg} {r g b : ℚ}
    (h1 : eqA A g r) (h2 : ltA A g b) :
    calculate_winner (n + 1) A r g b =
      match calculate_winner n A (r + A.step/10) (g - A.step/10) b,
            calculate_winner n A (r - A.step/10) (g + A.step/10) b with
      | none, _ => none
      | _, none => none
      | some none, _ => some none
      | some (some (Party.BLUE, _)), some none => some none
      | some (some (Party.BLUE, m1)), some (some (Party.BLUE, m2)) =>
          some (some (Party.BLUE, min m1 m2))
      | _, _ => some none := by
  rw [calculate_winner_succ]
  unfold third_red third_green third_blue tie_green_blue tie_red_blue tie_green_red
  rw [if_neg (fun hc => hc.1.2 (eqA_symm h1)),
      if_neg (fun hc => hc.1.2 h1),
      if_neg (fun hc => (not_ltA_of_ltA h2) hc.1),
      if_neg (fun hc => hc.2.2 h1),
      if_neg (fun hc => hc.2.2 (eqA_symm h1)),
      if_pos ⟨h1, h2⟩]

/-! ### Margin bounds under complementary flows -/

lemma fuel_none_ne {p : Party} {m : ℚ} :
    (none : FuelResult) ≠ some (some (p, m)) := by simp

lemma tie_none_ne {p : Party} {m : ℚ} :
    (some none : FuelResult) ≠ some (some (p, m)) := by simp

/-- A strict-third win under complementary flows: the two 2CP totals
sum to exactly 1, so the winning total exceeds 1/2; it stays at most 1
because the losing total is nonnegative. -/
lemma win_bounds {t s1 s2 f1 f2 : ℚ} (hsum : t + s1 + s2 = 1)
    (hf : f1 + f2 = 1) (hf1 : 0 ≤ f1) (hf2 : 0 ≤ f2)
    (ht : t < s2) (hlt : s2 + f2 * t < s1 + f1 * t) (hs1 : s1 ≤ 1) :
    1/2 < s1 + f1 * t ∧ s1 + f1 * t ≤ 1 := by
  have hwl : (s1 + f1 * t) + (s2 + f2 * t) = 1 := by
    have h : f1 * t + f2 * t = t := by rw [← add_mul, hf, one_mul]
    linarith
  constructor
  · linarith
  · rcases le_or_lt 0 t with h0 | h0
    · have h1 : 0 ≤ f2 * t := mul_nonneg hf2 h0
      linarith
    · have hf2le : f2 ≤ 1 := by linarith
      have h1 : 0 ≤ (1 - f2) * (-t) := mul_nonneg (by linarith) (by linarith)
      have h2 : t ≤ f2 * t := by nlinarith
      linarith

/-- Casting-vote nudges keep the shares at most 1: the share of either
tied party, nudged up by the tolerance `d`, stays at most 1 when the
leader `z` is more than `d` above the tied share `x`. -/
lemma nudge_le_one {d x y z : ℚ} (hd : 0 < d) (hd2 : d ≤ 1/2)
    (hsum : x + y + z = 1) (hy : y ≤ 1)
    (heq : |x - y| ≤ d) (hgap : d < z - x) :
    y + d ≤ 1 ∧ x + d ≤ 1 := by
  obtain ⟨he1, he2⟩ := abs_le.mp heq
  constructor
  · rcases le_or_lt 0 x with h0 | h0
    · linarith
    · linarith
  · rcases le_or_lt 0 y with h0 | h0
    · linarith
    · linarith

lemma min_bounds {m1 m2 : ℚ} (h1 : 1/2 < m1 ∧ m1 ≤ 1)
    (h2 : 1/2 < m2 ∧ m2 ≤ 1) : 1/2 < min m1 m2 ∧ min m1 m2 ≤ 1 :=
  ⟨lt_min h1.1 h2.1, le_trans (min_le_left _ _) h1.2⟩

lemma abs_pair_le {A : Cfg} {x y r g b : ℚ} (hst : StepOK A)
    (hInv : Inv r g b) (hx : x = r ∨ x = g ∨ x = b) (hy : y = r ∨ y = g ∨ y = b)
    (heq : eqA A x y) : |x - y| ≤ A.step / 10 := by
  obtain ⟨hsum, h1, h2, h3⟩ := hInv
  have hr : -(1:ℚ) ≤ r := by linarith
  have hg : -(1:ℚ) ≤ g := by linarith
  have hb : -(1:ℚ) ≤ b := by linarith
  have bx : |x| ≤ 2 := by
    rcases hx with h | h | h <;> subst h <;>
      exact abs_le_of_bounds (by linarith) (by linarith)
  have by2 : |y| ≤ 2 := by
    rcases hy with h | h | h <;> subst h <;>
      exact abs_le_of_bounds (by linarith) (by linarith)
  exact eqA_abs_le hst.1 bx by2 heq

lemma resok_tie_green_red {A : Cfg} {recur : ℚ → ℚ → ℚ → FuelResult}
    (hA : ValidFlows A) (hst : StepOK A)
    (hrec : ∀ r g b, Inv r g b → ResOK (recur r g b)) :
    ∀ r g b, Inv r g b → ResOK (tie_green_red recur A r g b) := by
  intro r g b hInv p m
  unfold tie_green_red
  by_cases hg : eqA A g r ∧ ltA A g b
  · rw [if_pos hg]
    obtain ⟨hsum, hr1, hg1, hb1⟩ := hInv
    have hd : (0:ℚ) < A.step/10 := by have := hst.1; linarith
    have hd2 : A.step/10 ≤ 1/2 := by have := hst.2; linarith
    have habs : |g - r| ≤ A.step/10 :=
      abs_pair_le hst ⟨hsum, hr1, hg1, hb1⟩ (Or.inr (Or.inl rfl)) (Or.inl rfl) hg.1
    have hgap : A.step/10 < b - g := ltA_gap hg.2
    have hn := nudge_le_one hd hd2 (by linarith : g + r + b = 1) hr1 habs hgap
    have hinv1 : Inv (r + A.step/10) (g - A.step/10) b :=
      ⟨by linarith, hn.1, by linarith, hb1⟩
    have hinv2 : Inv (r - A.step/10) (g + A.step/10) b :=
      ⟨by linarith, by linarith, hn.2, hb1⟩
    rcases hx : recur (r + A.step/10) (g - A.step/10) b with _ | (_ | ⟨p1, m1⟩) <;>
      rcases hy : recur (r - A.step/10) (g + A.step/10) b with _ | (_ | ⟨p2, m2⟩) <;>
        intro hres <;>
        first
          | exact absurd hres fuel_none_ne
          | exact absurd hres tie_none_ne
          | (cases p1 <;> first
              | exact absurd hres fuel_none_ne
              | exact absurd hres tie_none_ne)
          | (cases p1 <;> cases p2 <;>
              first
                | exact absurd hres tie_none_ne
                | (have hres2 : some (some (Party.BLUE, min m1 m2)) =
                      some (some (p, m)) := hres
                   injection hres2 with h1; injection h1 with h2
                   rw [Prod.mk.injEq] at h2
                   exact h2.2 ▸ min_bounds (hrec _ _ _ hinv1 _ _ hx)
                     (hrec _ _ _ hinv2 _ _ hy)))
  · rw [if_neg hg]
    intro hres
    exact absurd hres tie_none_ne

lemma resok_tie_red_blue {A : Cfg} {recur : ℚ → ℚ → ℚ → FuelResult}
    (hA : ValidFlows A) (hst : StepOK A)
    (hrec : ∀ r g b, Inv r g b → ResOK (recur r g b)) :
    ∀ r g b, Inv r g b → ResOK (tie_red_blue recur A r g b) := by
  intro r g b hInv p m
  unfold tie_red_blue
  by_cases hg : eqA A r b ∧ ltA A r g
  · rw [if_pos hg]
    obtain ⟨hsum, hr1, hg1, hb1⟩ := hInv
    have hd : (0:ℚ) < A.step/10 := by have := hst.1; linarith
    have hd2 : A.step/10 ≤ 1/2 := by have := hst.2; linarith
    have habs : |r - b| ≤ A.step/10 :=
      abs_pair_le hst ⟨hsum, hr1, hg1, hb1⟩ (Or.inl rfl) (Or.inr (Or.inr rfl)) hg.1
    have hgap : A.step/10 < g - r := ltA_gap hg.2
    have hn := nudge_le_one hd hd2 (by linarith : r + b + g = 1) hb1 habs hgap
    have hinv1 : Inv (r - A.step/10) g (b + A.step/10) :=
      ⟨by linarith, by linarith, hg1, hn.1⟩
    have hinv2 : Inv (r + A.step/10) g (b - A.step/10) :=
      ⟨by linarith, hn.2, hg1, by linarith⟩
    rcases hx : recur (r - A.step/10) g (b + A.step/10) with _ | (_ | ⟨p1, m1⟩) <;>
      rcases hy : recur (r + A.step/10) g (b - A.step/10) with _ | (_ | ⟨p2, m2⟩) <;>
        intro hres <;>
        first
          | exact absurd hres fuel_none_ne
          | exact absurd hres tie_none_ne
          | (cases p1 <;> first
              | exact absurd hres fuel_none_ne
              | exact absurd hres tie_none_ne
              | exact resok_tie_green_red hA hst hrec r g b ⟨hsum, hr1, hg1, hb1⟩ p m hres)
          | (cases p1 <;> cases p2 <;>
              first
                | exact absurd hres tie_none_ne
                | exact resok_tie_green_red hA hst hrec r g b ⟨hsum, hr1, hg1, hb1⟩ p m hres
                | (have hres2 : some (some (Party.GREEN, min m1 m2)) =
                      some (some (p, m)) := hres
                   injection hres2 with h1; injection h1 with h2
                   rw [Prod.mk.injEq] at h2
                   exact h2.2 ▸ min_bounds (hrec _ _ _ hinv1 _ _ hx)
                     (hrec _ _ _ hinv2 _ _ hy)))
  · rw [if_neg hg]
    exact resok_tie_green_red hA hst hrec r g b hInv p m

lemma resok_tie_green_blue {A : Cfg} {recur : ℚ → ℚ → ℚ → FuelResult}
    (hA : ValidFlows A) (hst : StepOK A)
    (hrec : ∀ r g b, Inv r g b → ResOK (recur r g b)) :
    ∀ r g b, Inv r g b → ResOK (tie_green_blue recur A r g b) := by
  intro r g b hInv p m
  unfold tie_green_blue
  by_cases hg : eqA A g b ∧ ltA A g r
  · rw [if_pos hg]
    obtain ⟨hsum, hr1, hg1, hb1⟩ := hInv
    have hd : (0:ℚ) < A.step/10 := by have := hst.1; linarith
    have hd2 : A.step/10 ≤ 1/2 := by have := hst.2; linarith
    have habs : |g - b| ≤ A.step/10 :=
      abs_pair_le hst ⟨hsum, hr1, hg1, hb1⟩ (Or.inr (Or.inl rfl)) (Or.inr (Or.inr rfl)) hg.1
    have hgap : A.step/10 < r - g := ltA_gap hg.2
    have hn := nudge_le_one hd hd2 (by linarith : g + b + r = 1) hb1 habs hgap
    have hinv1 : Inv r (g - A.step/10) (b + A.step/10) :=
      ⟨by linarith, hr1, by linarith, hn.1⟩
    have hinv2 : Inv r (g + A.step/10) (b - A.step/10) :=
      ⟨by linarith, hr1, hn.2, by linarith⟩
    rcases hx : recur r (g - A.step/10) (b + A.step/10) with _ | (_ | ⟨p1, m1⟩) <;>
      rcases hy : recur r (g + A.step/10) (b - A.step/10) with _ | (_ | ⟨p2, m2⟩) <;>
        intro hres <;>
        first
          | exact absurd hres fuel_none_ne
          | exact absurd hres tie_none_ne
          | (cases p1 <;> first
              | exact absurd hres fuel_none_ne
              | exact absurd hres tie_none_ne
              | exact resok_tie_red_blue hA hst hrec r g b ⟨hsum, hr1, hg1, hb1⟩ p m hres)
          | (cases p1 <;> cases p2 <;>
              first
                | exact absurd hres tie_none_ne
                | exact resok_tie_red_blue hA hst hrec r g b ⟨hsum, hr1, hg1, hb1⟩ p m hres
                | (have hres2 : some (some (Party.RED, min m1 m2)) =
                      some (some (p, m)) := hres
                   injection hres2 with h1; injection h1 with h2
                   rw [Prod.mk.injEq] at h2
                   exact h2.2 ▸ min_bounds (hrec _ _ _ hinv1 _ _ hx)
                     (hrec _ _ _ hinv2 _ _ hy)))
  · rw [if_neg hg]
    exact resok_tie_red_blue hA hst hrec r g b hInv p m

lemma resok_third_blue {A : Cfg} {recur : ℚ → ℚ → ℚ → FuelResult}
    (hA : ValidFlows A) (hst : StepOK A)
    (hrec : ∀ r g b, Inv r g b → ResOK (recur r g b)) :
    ∀ r g b, Inv r g b → ResOK (third_blue recur A r g b) := by
  intro r g b hInv p m
  obtain ⟨hf1, hf2, hf3, hf4, hf5, hf6, hc1, hc2, hc3⟩ := hA
  obtain ⟨hsum, hr1, hg1, hb1⟩ := hInv
  unfold third_blue
  by_cases hgd : ltA A b g ∧ ltA A b r
  · rw [if_pos hgd]
    by_cases hw1 : gtA A (r + A.blue_to_red * b) (g + A.blue_to_green * b)
    · rw [if_pos hw1]
      intro hres
      injection hres with h1; injection h1 with h2
      rw [Prod.mk.injEq] at h2
      exact h2.2 ▸ win_bounds (by linarith : b + r + g = 1) hc3 hf5 hf6 hgd.1.1 hw1.1 hr1
    · rw [if_neg hw1]
      by_cases hw2 : gtA A (g + A.blue_to_green * b) (r + A.blue_to_red * b)
      · rw [if_pos hw2]
        intro hres
        injection hres with h1; injection h1 with h2
        rw [Prod.mk.injEq] at h2
        exact h2.2 ▸ win_bounds (by linarith : b + g + r = 1) (by linarith) hf6 hf5
          hgd.2.1 hw2.1 hg1
      · rw [if_neg hw2]
        exact resok_tie_green_blue ⟨hf1, hf2, hf3, hf4, hf5, hf6, hc1, hc2, hc3⟩
          hst hrec r g b ⟨hsum, hr1, hg1, hb1⟩ p m
  · rw [if_neg hgd]
    exact resok_tie_green_blue ⟨hf1, hf2, hf3, hf4, hf5, hf6, hc1, hc2, hc3⟩
      hst hrec r g b ⟨hsum, hr1, hg1, hb1⟩ p m

lemma resok_third_green {A : Cfg} {recur : ℚ → ℚ → ℚ → FuelResult}
    (hA : ValidFlows A) (hst : StepOK A)
    (hrec : ∀ r g b, Inv r g b → ResOK (recur r g b)) :
    ∀ r g b, Inv r g b → ResOK (third_green recur A r g b) := by
  intro r g b hInv p m
  obtain ⟨hf1, hf2, hf3, hf4, hf5, hf6, hc1, hc2, hc3⟩ := hA
  obtain ⟨hsum, hr1, hg1, hb1⟩ := hInv
  unfold third_green
  by_cases hgd : ltA A g r ∧ ltA A g b
  · rw [if_pos hgd]
    by_cases hw1 : gtA A (r + A.green_to_red * g) (b + A.green_to_blue * g)
    · rw [if_pos hw1]
      intro hres
      injection hres with h1; injection h1 with h2
      rw [Prod.mk.injEq] at h2
      exact h2.2 ▸ win_bounds (by linarith : g + r + b = 1) hc2 hf3 hf4 hgd.2.1 hw1.1 hr1
    · rw [if_neg hw1]
      by_cases hw2 : gtA A (b + A.green_to_blue * g) (r + A.green_to_red * g)
      · rw [if_pos hw2]
        intro hres
        injection hres with h1; injection h1 with h2
        rw [Prod.mk.injEq] at h2
        exact h2.2 ▸ win_bounds (by linarith : g + b + r = 1) (by linarith) hf4 hf3
          hgd.1.1 hw2.1 hb1
      · rw [if_neg hw2]
        exact resok_third_blue ⟨hf1, hf2, hf3, hf4, hf5, hf6, hc1, hc2, hc3⟩
          hst hrec r g b ⟨hsum, hr1, hg1, hb1⟩ p m
  · rw [if_neg hgd]
    exact resok_third_blue ⟨hf1, hf2, hf3, hf4, hf5, hf6, hc1, hc2, hc3⟩
      hst hrec r g b ⟨hsum, hr1, hg1, hb1⟩ p m

lemma resok_third_red {A : Cfg} {recur : ℚ → ℚ → ℚ → FuelResult}
    (hA : ValidFlows A) (hst : StepOK A)
    (hrec : ∀ r g b, Inv r g b → ResOK (recur r g b)) :
    ∀ r g b, Inv r g b → ResOK (third_red recur A r g b) := by
  intro r g b hInv p m
  obtain ⟨hf1, hf2, hf3, hf4, hf5, hf6, hc1, hc2, hc3⟩ := hA
  obtain ⟨hsum, hr1, hg1, hb1⟩ := hInv
  unfold third_red
  by_cases hgd : ltA A r g ∧ ltA A r b
  · rw [if_pos hgd]
    by_cases hw1 : gtA A (g + A.red_to_green * r) (b + A.red_to_blue * r)
    · rw [if_pos hw1]
      intro hres
      injection hres with h1; injection h1 with h2
      rw [Prod.mk.injEq] at h2
      exact h2.2 ▸ win_bounds (by linarith : r + g + b = 1) hc1 hf1 hf2 hgd.2.1 hw1.1 hg1
    · rw [if_neg hw1]
      by_cases hw2 : gtA A (b + A.red_to_blue * r) (g + A.red_to_green * r)
      · rw [if_pos hw2]
        intro hres
        injection hres with h1; injection h1 with h2
        rw [Prod.mk.injEq] at h2
        exact h2.2 ▸ win_bounds (by linarith : r + b + g = 1) (by linarith) hf2 hf1
          hgd.1.1 hw2.1 hb1
      · rw [if_neg hw2]
        exact resok_third_green ⟨hf1, hf2, hf3, hf4, hf5, hf6, hc1, hc2, hc3⟩
          hst hrec r g b ⟨hsum, hr1, hg1, hb1⟩ p m
  · rw [if_neg hgd]
    exact resok_third_green ⟨hf1, hf2, hf3, hf4, hf5, hf6, hc1, hc2, hc3⟩
      hst hrec r g b ⟨hsum, hr1, hg1, hb1⟩ p m

/-- Under complementary flows with a validated step, every win reported
by `calculate_winner` on an invariant-satisfying triple has margin in
(1/2, 1]. -/
lemma calculate_winner_resok {A : Cfg} (hA : ValidFlows A) (hst : StepOK A) :
    ∀ n r g b, Inv r g b → ResOK (calculate_winner n A r g b) := by
  intro n
  induction n with
  | zero =>
      intro r g b _ p m hres
      exact absurd hres (by simp [calculate_winner])
  | succ n ih =>
      intro r g b hInv p m hres
      rw [calculate_winner_succ] at hres
      exact resok_third_red hA hst ih r g b hInv p m hres

/-! ### Helpers for concrete evaluation -/

lemma not_eqA_of_gap2 {A : Cfg} {x y : ℚ} (hs : 1/500 ≤ A.step)
    (hx1 : -2 ≤ x) (hx2 : x ≤ 2) (hy1 : -2 ≤ y) (hy2 : y ≤ 2)
    (h : A.step/10 < x - y ∨ A.step/10 < y - x) : ¬ eqA A x y := by
  refine not_eqA_of_gap hs (abs_le_of_bounds hx1 hx2) (abs_le_of_bounds hy1 hy2) ?_
  rcases h with h | h
  · exact lt_of_lt_of_le h (le_abs_self _)
  · calc A.step / 10 < y - x := h
      _ ≤ |y - x| := le_abs_self _
      _ = |x - y| := abs_sub_comm _ _

lemma clamp_id {A : Cfg} {v : ℚ} (h1 : A.start ≤ v) (h2 : v ≤ A.stop) :
    clamp A v = v := by
  unfold clamp clamp_val
  rw [min_eq_left h2, max_eq_left h1]

lemma clamp_hi {A : Cfg} {v : ℚ} (h1 : A.stop ≤ v) (h2 : A.start ≤ A.stop) :
    clamp A v = A.stop := by
  unfold clamp clamp_val
  rw [min_eq_right h1, max_eq_left h2]

lemma not_iscloseDefault {x y : ℚ} (hx1 : -2 ≤ x) (hx2 : x ≤ 2)
    (hy1 : -2 ≤ y) (hy2 : y ≤ 2)
    (h : 1/100000000 ≤ x - y ∨ 1/100000000 ≤ y - x) :
    ¬ iscloseDefault x y := by
  intro hc
  unfold iscloseDefault isclose at hc
  have hm : max (relTolDefault * max |x| |y|) 0 ≤ relTolDefault * 2 := by
    apply max_le
    · exact mul_le_mul_of_nonneg_left
        (max_le (abs_le_of_bounds hx1 hx2) (abs_le_of_bounds hy1 hy2))
        (by norm_num [relTolDefault])
    · norm_num [relTolDefault]
  have habs : |x - y| ≤ relTolDefault * 2 := le_trans hc hm
  have hlow : (1:ℚ)/100000000 ≤ |x - y| := by
    rcases h with h | h
    · exact le_trans h (le_abs_self _)
    · calc (1:ℚ)/100000000 ≤ y - x := h
        _ ≤ |y - x| := le_abs_self _
        _ = |x - y| := abs_sub_comm _ _
  have : (1:ℚ)/100000000 ≤ relTolDefault * 2 := le_trans hlow habs
  norm_num [relTolDefault] at this

/-- A non-degenerate segment whose endpoints are already inside the
viewport is returned unchanged by `line`. -/
lemma line_inside {A : Cfg} {x0 y0 x1 y1 : ℚ}
    (hx0a : A.start ≤ x0) (hx0b : x0 ≤ A.stop)
    (hy0a : A.start ≤ y0) (hy0b : y0 ≤ A.stop)
    (hx1a : A.start ≤ x1) (hx1b : x1 ≤ A.stop)
    (hy1a : A.start ≤ y1) (hy1b : y1 ≤ A.stop)
    (hncx : ¬ iscloseDefault x0 x1) (hncy : ¬ iscloseDefault y0 y1)
    (hout : ¬ ((x0 ≤ A.start ∧ x1 ≤ A.start) ∨ (y0 ≤ A.start ∧ y1 ≤ A.start) ∨
               (x0 ≥ A.stop ∧ x1 ≥ A.stop) ∨ (y0 ≥ A.stop ∧ y1 ≥ A.stop))) :
    line A x0 y0 x1 y1 = some ((x0, y0), (x1, y1)) := by
  unfold line
  rw [if_neg hncx, if_neg hncy, if_neg hout,
      if_neg (not_lt.mpr hy0a), if_neg (not_lt.mpr hy0b),
      if_neg (not_lt.mpr hx0a), if_neg (not_lt.mpr hx0b),
      if_neg (not_lt.mpr hy1a), if_neg (not_lt.mpr hy1b),
      if_neg (not_lt.mpr hx1a), if_neg (not_lt.mpr hx0b),
      clamp_id hx0a hx0b, clamp_id hy0a hy0b,
      clamp_id hx1a hx1b, clamp_id hy1a hy1b]

/-! ### Concrete evaluations on the default configuration -/

lemma cfg0_step : (1:ℚ)/500 ≤ cfg0.step := by norm_num [cfg0]

/-- `resolve(0.45, 0.30, 0.25)` with the default flows: Blue is third
and Red wins 2CP with 0.45 + 0.25·0.7 = 0.625. -/
lemma eval_45_30_25 :
    calculate_winner 1 cfg0 (45/100) (30/100) (25/100) =
      some (some (Party.RED, 5/8)) := by
  have h1 : ltA cfg0 ((25:ℚ)/100) (30/100) :=
    ltA_num cfg0_step (by norm_num [cfg0]) (by norm_num) (by norm_num)
      (by norm_num) (by norm_num)
  have h2 : ltA cfg0 ((25:ℚ)/100) (45/100) :=
    ltA_num cfg0_step (by norm_num [cfg0]) (by norm_num) (by norm_num)
      (by norm_num) (by norm_num)
  rw [third_blue_eval h1 h2,
      show (45:ℚ)/100 + cfg0.blue_to_red * (25/100) = 5/8 by norm_num [cfg0],
      show (30:ℚ)/100 + cfg0.blue_to_green * (25/100) = 3/8 by norm_num [cfg0]]
  unfold direct2cp
  rw [if_pos (gtA_num cfg0_step (by norm_num [cfg0]) (by norm_num) (by norm_num)
      (by norm_num) (by norm_num) : gtA cfg0 ((5:ℚ)/8) ((3:ℚ)/8))]

/-- With both red outflows zero (all red preferences exhaust), the
survivors keep their raw shares and the winning margin can be far below
one half. -/
lemma eval_exhaust :
    calculate_winner 1 cfgExhaust (3/10) (9/25) (17/50) =
      some (some (Party.GREEN, 9/25)) := by
  have hs : (1:ℚ)/500 ≤ cfgExhaust.step := by norm_num [cfgExhaust, cfg0]
  have h1 : ltA cfgExhaust ((3:ℚ)/10) (9/25) :=
    ltA_num hs (by norm_num [cfgExhaust, cfg0]) (by norm_num) (by norm_num)
      (by norm_num) (by norm_num)
  have h2 : ltA cfgExhaust ((3:ℚ)/10) (17/50) :=
    ltA_num hs (by norm_num [cfgExhaust, cfg0]) (by norm_num) (by norm_num)
      (by norm_num) (by norm_num)
  rw [third_red_eval h1 h2,
      show (9:ℚ)/25 + cfgExhaust.red_to_green * (3/10) = 9/25 by
        norm_num [cfgExhaust, cfg0],
      show (17:ℚ)/50 + cfgExhaust.red_to_blue * (3/10) = 17/50 by
        norm_num [cfgExhaust, cfg0]]
  unfold direct2cp
  rw [if_pos (gtA_num hs (by norm_num [cfgExhaust, cfg0]) (by norm_num)
      (by norm_num) (by norm_num) (by norm_num) : gtA cfgExhaust ((9:ℚ)/25) ((17:ℚ)/50))]

lemma eval_gex_c2 :
    calculate_winner 1 cfg0 (2/5) (299/1000) (301/1000) =
      some (some (Party.RED, 6392/10000)) := by
  have h1 : ltA cfg0 ((299:ℚ)/1000) (2/5) :=
    ltA_num cfg0_step (by norm_num [cfg0]) (by norm_num) (by norm_num)
      (by norm_num) (by norm_num)
  have h2 : ltA cfg0 ((299:ℚ)/1000) (301/1000) :=
    ltA_num cfg0_step (by norm_num [cfg0]) (by norm_num) (by norm_num)
      (by norm_num) (by norm_num)
  rw [third_green_eval h1 h2,
      show (2:ℚ)/5 + cfg0.green_to_red * (299/1000) = 6392/10000 by norm_num [cfg0],
      show (301:ℚ)/1000 + cfg0.green_to_blue * (299/1000) = 3608/10000 by
        norm_num [cfg0]]
  unfold direct2cp
  rw [if_pos (gtA_num cfg0_step (by norm_num [cfg0]) (by norm_num) (by norm_num)
      (by norm_num) (by norm_num) : gtA cfg0 ((6392:ℚ)/10000) ((3608:ℚ)/10000))]

lemma eval_bex_c2 :
    calculate_winner 1 cfg0 (2/5) (301/1000) (299/1000) =
      some (some (Party.RED, 6093/10000)) := by
  have h1 : ltA cfg0 ((299:ℚ)/1000) (301/1000) :=
    ltA_num cfg0_step (by norm_num [cfg0]) (by norm_num) (by norm_num)
      (by norm_num) (by norm_num)
  have h2 : ltA cfg0 ((299:ℚ)/1000) (2/5) :=
    ltA_num cfg0_step (by norm_num [cfg0]) (by norm_num) (by norm_num)
      (by norm_num) (by norm_num)
  rw [third_blue_eval h1 h2,
      show (2:ℚ)/5 + cfg0.blue_to_red * (299/1000) = 6093/10000 by norm_num [cfg0],
      show (301:ℚ)/1000 + cfg0.blue_to_green * (299/1000) = 3907/10000 by
        norm_num [cfg0]]
  unfold direct2cp
  rw [if_pos (gtA_num cfg0_step (by norm_num [cfg0]) (by norm_num) (by norm_num)
      (by norm_num) (by norm_num) : gtA cfg0 ((6093:ℚ)/10000) ((3907:ℚ)/10000))]

/-- The exact tie `resolve(0.40, 0.30, 0.30)`: the code nudges by the
full tolerance `step/10 = 0.001` and reports Red with the tighter of
the two perturbed margins. -/
lemma eval_tie_c2 :
    calculate_winner 2 cfg0 (2/5) (3/10) (3/10) =
      some (some (Party.RED, 6093/10000)) := by
  have h1 : eqA cfg0 ((3:ℚ)/10) ((3:ℚ)/10) :=
    eqA_of_close (by norm_num [cfg0]) (by norm_num [cfg0])
  have h2 : ltA cfg0 ((3:ℚ)/10) ((2:ℚ)/5) :=
    ltA_num cfg0_step (by norm_num [cfg0]) (by norm_num) (by norm_num)
      (by norm_num) (by norm_num)
  rw [tie_green_blue_eval h1 h2,
      show (3:ℚ)/10 - cfg0.step/10 = 299/1000 by norm_num [cfg0],
      show (3:ℚ)/10 + cfg0.step/10 = 301/1000 by norm_num [cfg0],
      eval_gex_c2, eval_bex_c2]
  show some (some (Party.RED, min ((6392:ℚ)/10000) ((6093:ℚ)/10000))) = _
  rw [min_eq_right (by norm_num : (6093:ℚ)/10000 ≤ 6392/10000)]

lemma eval_steps12_a :
    resolve_steps_one_two cfg0 (2/5) (2999/10000) (3001/10000) = none := by
  unfold resolve_steps_one_two
  rw [if_neg (fun hc => (not_ltA_of_ge (by norm_num) :
        ¬ ltA cfg0 ((2:ℚ)/5) (2999/10000)) hc.1),
      if_neg (fun hc => (not_ltA_of_close (by norm_num [cfg0]) (by norm_num [cfg0]) :
        ¬ ltA cfg0 ((2999:ℚ)/10000) (3001/10000)) hc.2),
      if_neg (fun hc => (not_ltA_of_ge (by norm_num) :
        ¬ ltA cfg0 ((3001:ℚ)/10000) (2999/10000)) hc.1)]

lemma eval_steps12_b :
    resolve_steps_one_two cfg0 (2/5) (3001/10000) (2999/10000) = none := by
  unfold resolve_steps_one_two
  rw [if_neg (fun hc => (not_ltA_of_ge (by norm_num) :
        ¬ ltA cfg0 ((2:ℚ)/5) (3001/10000)) hc.1),
      if_neg (fun hc => (not_ltA_of_ge (by norm_num) :
        ¬ ltA cfg0 ((3001:ℚ)/10000) (2999/10000)) hc.2),
      if_neg (fun hc => (not_ltA_of_close (by norm_num [cfg0]) (by norm_num [cfg0]) :
        ¬ ltA cfg0 ((2999:ℚ)/10000) (3001/10000)) hc.1)]

/-- The resolver happily classifies a triple that sums to 1.2: no
`InvalidInput` rejection and no renormalisation. -/
lemma eval_invalid :
    calculate_winner 1 cfg0 (9/10) (1/5) (1/10) =
      some (some (Party.RED, 97/100)) := by
  have h1 : ltA cfg0 ((1:ℚ)/10) (1/5) :=
    ltA_num cfg0_step (by norm_num [cfg0]) (by norm_num) (by norm_num)
      (by norm_num) (by norm_num)
  have h2 : ltA cfg0 ((1:ℚ)/10) (9/10) :=
    ltA_num cfg0_step (by norm_num [cfg0]) (by norm_num) (by norm_num)
      (by norm_num) (by norm_num)
  rw [third_blue_eval h1 h2,
      show (9:ℚ)/10 + cfg0.blue_to_red * (1/10) = 97/100 by norm_num [cfg0],
      show (1:ℚ)/5 + cfg0.blue_to_green * (1/10) = 23/100 by norm_num [cfg0]]
  unfold direct2cp
  rw [if_pos (gtA_num cfg0_step (by norm_num [cfg0]) (by norm_num) (by norm_num)
      (by norm_num) (by norm_num) : gtA cfg0 ((97:ℚ)/100) ((23:ℚ)/100))]

/-! ### Concrete evaluations for the relabeling counterexample -/

lemma eval_c9_gex :
    calculate_winner 1 cfg0 (3340/10000) (3316/10000) (3344/10000) =
      some (some (Party.RED, 59928/100000)) := by
  have h1 : ltA cfg0 ((3316:ℚ)/10000) (3340/10000) :=
    ltA_num cfg0_step (by norm_num [cfg0]) (by norm_num) (by norm_num)
      (by norm_num) (by norm_num)
  have h2 : ltA cfg0 ((3316:ℚ)/10000) (3344/10000) :=
    ltA_num cfg0_step (by norm_num [cfg0]) (by norm_num) (by norm_num)
      (by norm_num) (by norm_num)
  rw [third_green_eval h1 h2,
      show (3340:ℚ)/10000 + cfg0.green_to_red * (3316/10000) = 59928/100000 by
        norm_num [cfg0],
      show (3344:ℚ)/10000 + cfg0.green_to_blue * (3316/10000) = 40072/100000 by
        norm_num [cfg0]]
  unfold direct2cp
  rw [if_pos (gtA_num cfg0_step (by norm_num [cfg0]) (by norm_num) (by norm_num)
      (by norm_num) (by norm_num) : gtA cfg0 ((59928:ℚ)/100000) ((40072:ℚ)/100000))]

lemma eval_c9_bex :
    calculate_winner 1 cfg0 (3340/10000) (3336/10000) (3324/10000) =
      some (some (Party.RED, 56668/100000)) := by
  have h1 : ltA cfg0 ((3324:ℚ)/10000) (3336/10000) :=
    ltA_num cfg0_step (by norm_num [cfg0]) (by norm_num) (by norm_num)
      (by norm_num) (by norm_num)
  have h2 : ltA cfg0 ((3324:ℚ)/10000) (3340/10000) :=
    ltA_num cfg0_step (by norm_num [cfg0]) (by norm_num) (by norm_num)
      (by norm_num) (by norm_num)
  rw [third_blue_eval h1 h2,
      show (3340:ℚ)/10000 + cfg0.blue_to_red * (3324/10000) = 56668/100000 by
        norm_num [cfg0],
      show (3336:ℚ)/10000 + cfg0.blue_to_green * (3324/10000) = 43332/100000 by
        norm_num [cfg0]]
  unfold direct2cp
  rw [if_pos (gtA_num cfg0_step (by norm_num [cfg0]) (by norm_num) (by norm_num)
      (by norm_num) (by norm_num) : gtA cfg0 ((56668:ℚ)/100000) ((43332:ℚ)/100000))]

/-- Near-tie for last between Green and Blue with Red leading by less
than the tolerance over Blue: the code still resolves it (the tie guard
only compares the green share with the leader). -/
lemma eval_c9_lhs :
    calculate_winner 2 cfg0 (3340/10000) (3326/10000) (3334/10000) =
      some (some (Party.RED, 56668/100000)) := by
  have h1 : eqA cfg0 ((3326:ℚ)/10000) ((3334:ℚ)/10000) :=
    eqA_of_close (by norm_num [cfg0]) (by norm_num [cfg0])
  have h2 : ltA cfg0 ((3326:ℚ)/10000) ((3340:ℚ)/10000) :=
    ltA_num cfg0_step (by norm_num [cfg0]) (by norm_num) (by norm_num)
      (by norm_num) (by norm_num)
  rw [tie_green_blue_eval h1 h2,
      show (3326:ℚ)/10000 - cfg0.step/10 = 3316/10000 by norm_num [cfg0],
      show (3334:ℚ)/10000 + cfg0.step/10 = 3344/10000 by norm_num [cfg0],
      show (3326:ℚ)/10000 + cfg0.step/10 = 3336/10000 by norm_num [cfg0],
      show (3334:ℚ)/10000 - cfg0.step/10 = 3324/10000 by norm_num [cfg0],
      eval_c9_gex, eval_c9_bex]
  show some (some (Party.RED, min ((59928:ℚ)/100000) ((56668:ℚ)/100000))) = _
  rw [min_eq_right (by norm_num : (56668:ℚ)/100000 ≤ 59928/100000)]

/-- The same physical situation with Green and Blue consistently
relabeled: now the tied share compared against the leader is within
tolerance of it, no branch fires, and the result is a tie. -/
lemma eval_c9_rhs :
    calculate_winner 2 (permCfg P3.sgb cfg0) (3340/10000) (3334/10000) (3326/10000) =
      some none := by
  have hs : (1:ℚ)/500 ≤ (permCfg P3.sgb cfg0).step := by
    norm_num [permCfg, cfg0]
  rw [calculate_winner_succ]
  unfold third_red third_green third_blue tie_green_blue tie_red_blue tie_green_red
  rw [if_neg (fun hc => (not_ltA_of_ge (by norm_num) :
        ¬ ltA (permCfg P3.sgb cfg0) ((3340:ℚ)/10000) (3334/10000)) hc.1),
      if_neg (fun hc => (not_ltA_of_close (by norm_num [permCfg, cfg0])
          (by norm_num [permCfg, cfg0]) :
        ¬ ltA (permCfg P3.sgb cfg0) ((3334:ℚ)/10000) (3340/10000)) hc.1),
      if_neg (fun hc => (not_ltA_of_close (by norm_num [permCfg, cfg0])
          (by norm_num [permCfg, cfg0]) :
        ¬ ltA (permCfg P3.sgb cfg0) ((3326:ℚ)/10000) (3334/10000)) hc.1),
      if_neg (fun hc => (not_ltA_of_close (by norm_num [permCfg, cfg0])
          (by norm_num [permCfg, cfg0]) :
        ¬ ltA (permCfg P3.sgb cfg0) ((3334:ℚ)/10000) (3340/10000)) hc.2),
      if_neg (fun hc => (not_eqA_of_gap2 hs (by norm_num) (by norm_num)
          (by norm_num) (by norm_num) (Or.inl (by norm_num [permCfg, cfg0])) :
        ¬ eqA (permCfg P3.sgb cfg0) ((3340:ℚ)/10000) (3326/10000)) hc.1),
      if_neg (fun hc => (not_ltA_of_ge (by norm_num) :
        ¬ ltA (permCfg P3.sgb cfg0) ((3334:ℚ)/10000) (3326/10000)) hc.2)]

/-! ### The knife-edge divergence -/

lemma dyadic_step : (1:ℚ)/500 ≤ cfgDyadic.step := by norm_num [cfgDyadic, cfg0]

/-- At shares (0.499755859375, 0.250244140625, 0.25) with step
10·2⁻¹², the tied pair differs by exactly the tolerance 2⁻¹²; the
exclude-Green perturbation swaps the two tied shares and its own
exclude-Blue perturbation swaps them back, so the recursion cycles
between the two states and never returns, for any amount of fuel. -/
lemma diverge_aux :
    ∀ n, calculate_winner n cfgDyadic (2047/4096) (1025/4096) (1024/4096) = none ∧
         calculate_winner n cfgDyadic (2047/4096) (1024/4096) (1025/4096) = none := by
  have hq1 : eqA cfgDyadic ((1025:ℚ)/4096) ((1024:ℚ)/4096) :=
    eqA_of_close (by norm_num [cfgDyadic, cfg0]) (by norm_num [cfgDyadic, cfg0])
  have hq2 : ltA cfgDyadic ((1025:ℚ)/4096) ((2047:ℚ)/4096) :=
    ltA_num dyadic_step (by norm_num [cfgDyadic, cfg0]) (by norm_num) (by norm_num)
      (by norm_num) (by norm_num)
  have hq1b : eqA cfgDyadic ((1024:ℚ)/4096) ((1025:ℚ)/4096) := eqA_symm hq1
  have hq2b : ltA cfgDyadic ((1024:ℚ)/4096) ((2047:ℚ)/4096) :=
    ltA_num dyadic_step (by norm_num [cfgDyadic, cfg0]) (by norm_num) (by norm_num)
      (by norm_num) (by norm_num)
  intro n
  induction n with
  | zero => exact ⟨rfl, rfl⟩
  | succ n ih =>
      constructor
      · rw [tie_green_blue_eval hq1 hq2,
            show (1025:ℚ)/4096 - cfgDyadic.step/10 = 1024/4096 by
              norm_num [cfgDyadic, cfg0],
            show (1024:ℚ)/4096 + cfgDyadic.step/10 = 1025/4096 by
              norm_num [cfgDyadic, cfg0],
            ih.2]
        rcases calculate_winner n cfgDyadic (2047/4096)
            (1025/4096 + cfgDyadic.step/10) (1024/4096 - cfgDyadic.step/10)
          with _ | (_ | ⟨p, m⟩) <;>
          first | rfl | (cases p <;> rfl)
      · rw [tie_green_blue_eval hq1b hq2b,
            show (1024:ℚ)/4096 - cfgDyadic.step/10 = 1023/4096 by
              norm_num [cfgDyadic, cfg0],
            show (1025:ℚ)/4096 + cfgDyadic.step/10 = 1026/4096 by
              norm_num [cfgDyadic, cfg0],
            show (1024:ℚ)/4096 + cfgDyadic.step/10 = 1025/4096 by
              norm_num [cfgDyadic, cfg0],
            show (1025:ℚ)/4096 - cfgDyadic.step/10 = 1024/4096 by
              norm_num [cfgDyadic, cfg0],
            ih.1]
        rcases calculate_winner n cfgDyadic (2047/4096) (1023/4096) (1026/4096)
          with _ | (_ | ⟨p, m⟩) <;>
          first | rfl | (cases p <;> rfl)

/-! ### Concrete boundary geometry on the default configuration -/

lemma point1_cfg0 : point1 cfg0 = (1/5, 11/25) := by
  unfold point1; norm_num [cfg0]

lemma point2_cfg0 : point2 cfg0 = (5/17, 7/17) := by
  unfold point2
  rw [if_neg (by norm_num [cfg0] :
    ¬ (cfg0.blue_to_red - cfg0.blue_to_green < 0))]
  norm_num [cfg0]

lemma point4_cfg0 : point4 cfg0 = (4/9, 5/18) := by
  unfold point4
  rw [if_neg (by norm_num [cfg0] :
    ¬ (cfg0.green_to_red - cfg0.green_to_blue < 0))]
  norm_num [cfg0]

lemma point5_cfg0 : point5 cfg0 = (23/50, 1/5) := by
  unfold point5; norm_num [cfg0]

lemma point6_cfg0 : point6 cfg0 = (4/9, 5/18) := by
  unfold point6
  rw [if_neg (by norm_num [cfg0] :
        ¬ (cfg0.red_to_blue - cfg0.red_to_green = 0)),
      if_neg (by norm_num [cfg0] :
        ¬ (cfg0.red_to_blue - cfg0.red_to_green > 0))]
  norm_num [cfg0]

lemma line_seg1 : line cfg0 (1/5) (11/25) (5/17) (7/17) =
    some ((1/5, 11/25), (5/17, 7/17)) := by
  refine line_inside (by norm_num [cfg0]) (by norm_num [cfg0]) (by norm_num [cfg0])
    (by norm_num [cfg0]) (by norm_num [cfg0]) (by norm_num [cfg0])
    (by norm_num [cfg0]) (by norm_num [cfg0])
    (not_iscloseDefault (by norm_num) (by norm_num) (by norm_num) (by norm_num)
      (Or.inr (by norm_num)))
    (not_iscloseDefault (by norm_num) (by norm_num) (by norm_num) (by norm_num)
      (Or.inl (by norm_num))) ?_
  intro h
  rcases h with ⟨h1, h2⟩ | ⟨h1, h2⟩ | ⟨h1, h2⟩ | ⟨h1, h2⟩ <;>
    norm_num [cfg0] at h1 h2

lemma line_seg2 : line cfg0 (5/17) (7/17) (1/3) (1/3) =
    some ((5/17, 7/17), (1/3, 1/3)) := by
  refine line_inside (by norm_num [cfg0]) (by norm_num [cfg0]) (by norm_num [cfg0])
    (by norm_num [cfg0]) (by norm_num [cfg0]) (by norm_num [cfg0])
    (by norm_num [cfg0]) (by norm_num [cfg0])
    (not_iscloseDefault (by norm_num) (by norm_num) (by norm_num) (by norm_num)
      (Or.inr (by norm_num)))
    (not_iscloseDefault (by norm_num) (by norm_num) (by norm_num) (by norm_num)
      (Or.inl (by norm_num))) ?_
  intro h
  rcases h with ⟨h1, h2⟩ | ⟨h1, h2⟩ | ⟨h1, h2⟩ | ⟨h1, h2⟩ <;>
    norm_num [cfg0] at h1 h2

lemma line_seg3 : line cfg0 (1/3) (1/3) (4/9) (5/18) =
    some ((1/3, 1/3), (4/9, 5/18)) := by
  refine line_inside (by norm_num [cfg0]) (by norm_num [cfg0]) (by norm_num [cfg0])
    (by norm_num [cfg0]) (by norm_num [cfg0]) (by norm_num [cfg0])
    (by norm_num [cfg0]) (by norm_num [cfg0])
    (not_iscloseDefault (by norm_num) (by norm_num) (by norm_num) (by norm_num)
      (Or.inr (by norm_num)))
    (not_iscloseDefault (by norm_num) (by norm_num) (by norm_num) (by norm_num)
      (Or.inl (by norm_num))) ?_
  intro h
  rcases h with ⟨h1, h2⟩ | ⟨h1, h2⟩ | ⟨h1, h2⟩ | ⟨h1, h2⟩ <;>
    norm_num [cfg0] at h1 h2

lemma line_seg4 : line cfg0 (4/9) (5/18) (23/50) (1/5) =
    some ((4/9, 5/18), (23/50, 1/5)) := by
  refine line_inside (by norm_num [cfg0]) (by norm_num [cfg0]) (by norm_num [cfg0])
    (by norm_num [cfg0]) (by norm_num [cfg0]) (by norm_num [cfg0])
    (by norm_num [cfg0]) (by norm_num [cfg0])
    (not_iscloseDefault (by norm_num) (by norm_num) (by norm_num) (by norm_num)
      (Or.inr (by norm_num)))
    (not_iscloseDefault (by norm_num) (by norm_num) (by norm_num) (by norm_num)
      (Or.inl (by norm_num))) ?_
  intro h
  rcases h with ⟨h1, h2⟩ | ⟨h1, h2⟩ | ⟨h1, h2⟩ | ⟨h1, h2⟩ <;>
    norm_num [cfg0] at h1 h2

lemma line_seg6 : line cfg0 (4/9) (5/18) (1/2) (1/2) =
    some ((4/9, 5/18), (1/2, 1/2)) := by
  refine line_inside (by norm_num [cfg0]) (by norm_num [cfg0]) (by norm_num [cfg0])
    (by norm_num [cfg0]) (by norm_num [cfg0]) (by norm_num [cfg0])
    (by norm_num [cfg0]) (by norm_num [cfg0])
    (not_iscloseDefault (by norm_num) (by norm_num) (by norm_num) (by norm_num)
      (Or.inr (by norm_num)))
    (not_iscloseDefault (by norm_num) (by norm_num) (by norm_num) (by norm_num)
      (Or.inr (by norm_num))) ?_
  intro h
  rcases h with ⟨h1, h2⟩ | ⟨h1, h2⟩ | ⟨h1, h2⟩ | ⟨h1, h2⟩ <;>
    norm_num [cfg0] at h1 h2

lemma draw_lines_cfg0 :
    draw_lines cfg0 =
      { red_green := [some ((1/5, 11/25), (5/17, 7/17)),
                      some ((5/17, 7/17), (1/3, 1/3))]
        red_blue := [some ((1/3, 1/3), (4/9, 5/18)),
                     some ((4/9, 5/18), (23/50, 1/5))]
        blue_green := [some ((1/3, 1/3), (4/9, 5/18)),
                       some ((4/9, 5/18), (1/2, 1/2))]
        top_right := ((2/5, 3/5), (3/5, 2/5)) } := by
  unfold draw_lines
  rw [point1_cfg0, point2_cfg0, point4_cfg0, point5_cfg0, point6_cfg0]
  simp only [point3, point7]
  rw [line_seg1, line_seg2, line_seg3, line_seg4, line_seg6]
  norm_num [cfg0]

/-- The clipping typo: with the first endpoint inside and the second
past the right bound, the returned second endpoint keeps the raw
clamped `y` instead of the line-equation value (the code tests
`x0 > A.stop` where it should test `x1`). -/
lemma eval_line_bug :
    line cfg0 (2/5) (2/5) (4/5) (1/2) = some ((2/5, 2/5), (3/5, 1/2)) := by
  unfold line
  rw [if_neg (not_iscloseDefault (by norm_num) (by norm_num) (by norm_num)
        (by norm_num) (Or.inr (by norm_num)) : ¬ iscloseDefault ((2:ℚ)/5) (4/5)),
      if_neg (not_iscloseDefault (by norm_num) (by norm_num) (by norm_num)
        (by norm_num) (Or.inr (by norm_num)) : ¬ iscloseDefault ((2:ℚ)/5) (1/2)),
      if_neg (?hout :
        ¬ (((2:ℚ)/5 ≤ cfg0.start ∧ (4:ℚ)/5 ≤ cfg0.start) ∨
           ((2:ℚ)/5 ≤ cfg0.start ∧ (1:ℚ)/2 ≤ cfg0.start) ∨
           ((2:ℚ)/5 ≥ cfg0.stop ∧ (4:ℚ)/5 ≥ cfg0.stop) ∨
           ((2:ℚ)/5 ≥ cfg0.stop ∧ (1:ℚ)/2 ≥ cfg0.stop))),
      if_neg (by norm_num [cfg0] : ¬ ((2:ℚ)/5 < cfg0.start)),
      if_neg (by norm_num [cfg0] : ¬ ((2:ℚ)/5 > cfg0.stop)),
      if_neg (by norm_num [cfg0] : ¬ ((2:ℚ)/5 > cfg0.stop)),
      if_neg (by norm_num [cfg0] : ¬ ((1:ℚ)/2 < cfg0.start)),
      if_neg (by norm_num [cfg0] : ¬ ((1:ℚ)/2 > cfg0.stop)),
      if_neg (by norm_num [cfg0] : ¬ ((4:ℚ)/5 < cfg0.start)),
      clamp_id (by norm_num [cfg0] : cfg0.start ≤ (2:ℚ)/5)
        (by norm_num [cfg0] : (2:ℚ)/5 ≤ cfg0.stop),
      clamp_hi (by norm_num [cfg0] : cfg0.stop ≤ (4:ℚ)/5)
        (by norm_num [cfg0] : cfg0.start ≤ cfg0.stop),
      clamp_id (by norm_num [cfg0] : cfg0.start ≤ (1:ℚ)/2)
        (by norm_num [cfg0] : (1:ℚ)/2 ≤ cfg0.stop)]
  · norm_num [cfg0]
  case hout =>
    intro h
    rcases h with ⟨h1, h2⟩ | ⟨h1, h2⟩ | ⟨h1, h2⟩ | ⟨h1, h2⟩ <;>
      norm_num [cfg0] at h1 h2

/-! ### Flow normalisation bounds -/

lemma clamp01_bounds (x : ℚ) : 0 ≤ max (min |x| 1) 0 ∧ max (min |x| 1) 0 ≤ 1 :=
  ⟨le_max_right _ _, max_le (min_le_right _ _) zero_le_one⟩

lemma norm_pair {u v : ℚ} (hu : 0 ≤ u ∧ u ≤ 1) (hv : 0 ≤ v ∧ v ≤ 1) :
    (0 ≤ (if u + v > 1 then u / (u + v) else u) ∧
      (if u + v > 1 then u / (u + v) else u) ≤ 1) ∧
    (0 ≤ (if u + v > 1 then v / (u + v) else v) ∧
      (if u + v > 1 then v / (u + v) else v) ≤ 1) ∧
    (if u + v > 1 then u / (u + v) else u) +
      (if u + v > 1 then v / (u + v) else v) ≤ 1 := by
  by_cases h : u + v > 1
  · rw [if_pos h, if_pos h]
    have hpos : (0:ℚ) < u + v := by linarith
    have hsum : u / (u + v) + v / (u + v) = 1 := by
      rw [div_add_div_same, div_self (ne_of_gt hpos)]
    refine ⟨⟨div_nonneg hu.1 (le_of_lt hpos), ?_⟩,
            ⟨div_nonneg hv.1 (le_of_lt hpos), ?_⟩, le_of_eq hsum⟩
    · rw [div_le_one hpos]; linarith
    · rw [div_le_one hpos]; linarith
  · rw [if_neg h, if_neg h]
    push_neg at h
    exact ⟨hu, hv, h⟩

/-! ## Claim theorems -/

/-- Claim C1, counterexample: with the valid flow configuration
red→green = red→blue = 0 (pair sum 0 ≤ 1) and the valid triple
(0.30, 0.36, 0.34), `calculate_winner` returns `Win(GREEN, 0.36)`,
whose margin is not greater than 0.5 — so a Win margin need not lie in
(0.5, 1] when a source party's outgoing pair sums to less than 1. -/
theorem c1_counterexample :
    (0 ≤ cfgExhaust.red_to_green ∧ 0 ≤ cfgExhaust.red_to_blue ∧
      cfgExhaust.red_to_green + cfgExhaust.red_to_blue ≤ 1) ∧
    ((3:ℚ)/10 + 9/25 + 17/50 = 1) ∧
    calculate_winner 1 cfgExhaust (3/10) (9/25) (17/50) =
      some (some (Party.GREEN, 9/25)) ∧
    ¬ ((1:ℚ)/2 < 9/25) :=
  ⟨by norm_num [cfgExhaust, cfg0], by norm_num, eval_exhaust, by norm_num⟩

/-- Claim C1, amended: for every valid vote-share triple (components in
[0,1] summing to 1) and every preference-flow configuration whose six
ratios are nonnegative and whose outgoing pair per source party sums to
exactly 1, with the step in the validated range, whenever
`calculate_winner` returns a win the margin lies in (0.5, 1]. -/
theorem c1_margin_in_half_one (A : Cfg) (hA : ValidFlows A) (hst : StepOK A)
    (n : ℕ) (r g b : ℚ) (hr0 : 0 ≤ r) (hr1 : r ≤ 1) (hg0 : 0 ≤ g) (hg1 : g ≤ 1)
    (hb0 : 0 ≤ b) (hb1 : b ≤ 1) (hsum : r + g + b = 1) (p : Party) (m : ℚ)
    (hres : calculate_winner n A r g b = some (some (p, m))) :
    1/2 < m ∧ m ≤ 1 :=
  calculate_winner_resok hA hst n r g b ⟨hsum, hr1, hg1, hb1⟩ p m hres

/-- Claim C1, witness: the default flows are complementary and
`resolve(0.45, 0.30, 0.25) = Win(RED, 0.625)` has margin in (0.5, 1]. -/
theorem c1_witness : (1:ℚ)/2 < 5/8 ∧ (5:ℚ)/8 ≤ 1 :=
  c1_margin_in_half_one cfg0 (by norm_num [ValidFlows, cfg0])
    (by norm_num [StepOK, cfg0]) 1 (45/100) (30/100) (25/100)
    (by norm_num) (by norm_num) (by norm_num) (by norm_num) (by norm_num)
    (by norm_num) (by norm_num) Party.RED (5/8) eval_45_30_25

/-- Claim C2, counterexample: at the exact tie `(0.40, 0.30, 0.30)`
with the default flows, the code returns `Win(RED, 0.6093)`, but the
claimed procedure — recompute steps 1-2 with the tied shares nudged by
ε/10 = step/100 — does not separate the tied pair beyond the tolerance,
finds no strict third either way, and so reports a tie. -/
theorem c2_counterexample :
    calculate_winner 2 cfg0 (2/5) (3/10) (3/10) =
      some (some (Party.RED, 6093/10000)) ∧
    ((3:ℚ)/10 - cfg0.step/100 = 2999/10000 ∧
      (3:ℚ)/10 + cfg0.step/100 = 3001/10000) ∧
    castingVote Party.RED
      (resolve_steps_one_two cfg0 (2/5) (2999/10000) (3001/10000))
      (resolve_steps_one_two cfg0 (2/5) (3001/10000) (2999/10000)) = none ∧
    (some (Party.RED, (6093:ℚ)/10000) : WinnerResult) ≠ none := by
  refine ⟨eval_tie_c2, ⟨by norm_num [cfg0], by norm_num [cfg0]⟩, ?_, by simp⟩
  rw [eval_steps12_a, eval_steps12_b]
  rfl

/-- Claim C2, amended: when two parties are tied within tolerance for
last place and the third strictly leads both, `calculate_winner`
recomputes the full resolver twice with the to-be-excluded tied share
nudged down by ε = step/10 (not ε/10) and the other tied share nudged
up by ε, and combines the two results by the casting-vote rule: the
leader wins with the smaller of the two margins if it wins both
perturbed runs, otherwise the result is a tie. -/
theorem c2_casting_vote (A : Cfg) (n : ℕ) (r g b : ℚ) :
    (∀ x y, eqA A g b → ltA A g r → ltA A b r →
      calculate_winner n A r (g - A.step/10) (b + A.step/10) = some x →
      calculate_winner n A r (g + A.step/10) (b - A.step/10) = some y →
      calculate_winner (n + 1) A r g b = some (castingVote Party.RED x y)) ∧
    (∀ x y, eqA A r b → ltA A r g → ltA A b g →
      calculate_winner n A (r - A.step/10) g (b + A.step/10) = some x →
      calculate_winner n A (r + A.step/10) g (b - A.step/10) = some y →
      calculate_winner (n + 1) A r g b = some (castingVote Party.GREEN x y)) ∧
    (∀ x y, eqA A g r → ltA A g b → ltA A r b →
      calculate_winner n A (r + A.step/10) (g - A.step/10) b = some x →
      calculate_winner n A (r - A.step/10) (g + A.step/10) b = some y →
      calculate_winner (n + 1) A r g b = some (castingVote Party.BLUE x y)) := by
  refine ⟨?_, ?_, ?_⟩
  · intro x y h1 h2 h3 hx hy
    rw [tie_green_blue_eval h1 h2, hx, hy]
    rcases x with _ | ⟨p1, m1⟩ <;> rcases y with _ | ⟨p2, m2⟩ <;>
      first
        | rfl
        | (cases p1 <;> rfl)
        | (cases p2 <;> rfl)
        | (cases p1 <;> cases p2 <;> rfl)
  · intro x y h1 h2 h3 hx hy
    rw [tie_red_blue_eval h1 h2, hx, hy]
    rcases x with _ | ⟨p1, m1⟩ <;> rcases y with _ | ⟨p2, m2⟩ <;>
      first
        | rfl
        | (cases p1 <;> rfl)
        | (cases p2 <;> rfl)
        | (cases p1 <;> cases p2 <;> rfl)
  · intro x y h1 h2 h3 hx hy
    rw [tie_green_red_eval h1 h2, hx, hy]
    rcases x with _ | ⟨p1, m1⟩ <;> rcases y with _ | ⟨p2, m2⟩ <;>
      first
        | rfl
        | (cases p1 <;> rfl)
        | (cases p2 <;> rfl)
        | (cases p1 <;> cases p2 <;> rfl)

/-- Claim C2, witness: the tie branch at `(0.40, 0.30, 0.30)` combines
the two ε-nudged runs by the casting-vote rule. -/
theorem c2_witness :
    calculate_winner 2 cfg0 (2/5) (3/10) (3/10) =
      some (castingVote Party.RED (some (Party.RED, 6392/10000))
        (some (Party.RED, 6093/10000))) :=
  (c2_casting_vote cfg0 1 (2/5) (3/10) (3/10)).1
    (some (Party.RED, 6392/10000)) (some (Party.RED, 6093/10000))
    (eqA_of_close (by norm_num [cfg0]) (by norm_num [cfg0]))
    (ltA_num cfg0_step (by norm_num [cfg0]) (by norm_num) (by norm_num)
      (by norm_num) (by norm_num))
    (ltA_num cfg0_step (by norm_num [cfg0]) (by norm_num) (by norm_num)
      (by norm_num) (by norm_num))
    (by rw [show (3:ℚ)/10 - cfg0.step/10 = 299/1000 by norm_num [cfg0],
            show (3:ℚ)/10 + cfg0.step/10 = 301/1000 by norm_num [cfg0]]
        exact eval_gex_c2)
    (by rw [show (3:ℚ)/10 + cfg0.step/10 = 301/1000 by norm_num [cfg0],
            show (3:ℚ)/10 - cfg0.step/10 = 299/1000 by norm_num [cfg0]]
        exact eval_bex_c2)

/-- Claim C3: with the default flows and ε = 0.001, the triple
(red 0.45, green 0.30, blue 0.25) has Blue strictly third and resolves
to `Win(RED, 0.625)` with 0.625 = 0.45 + 0.25·0.7. -/
theorem c3_concrete_scenario :
    ltA cfg0 ((25:ℚ)/100) (30/100) ∧ ltA cfg0 ((25:ℚ)/100) (45/100) ∧
    ((5:ℚ)/8 = 45/100 + 25/100 * (7/10)) ∧
    calculate_winner 1 cfg0 (45/100) (30/100) (25/100) =
      some (some (Party.RED, 5/8)) :=
  ⟨ltA_num cfg0_step (by norm_num [cfg0]) (by norm_num) (by norm_num)
      (by norm_num) (by norm_num),
   ltA_num cfg0_step (by norm_num [cfg0]) (by norm_num) (by norm_num)
      (by norm_num) (by norm_num),
   by norm_num, eval_45_30_25⟩

/-- Claim C4: when exactly one party is strictly third and the two
candidate 2CP totals after redistribution are within tolerance of each
other, `calculate_winner` reports a tie (Python `None`) rather than
declaring a winner. -/
theorem c4_marginal_redistribution_tie (A : Cfg) (n : ℕ) (r g b : ℚ)
    (h : (ltA A r g ∧ ltA A r b ∧
            eqA A (g + A.red_to_green * r) (b + A.red_to_blue * r)) ∨
         (ltA A g r ∧ ltA A g b ∧
            eqA A (r + A.green_to_red * g) (b + A.green_to_blue * g)) ∨
         (ltA A b g ∧ ltA A b r ∧
            eqA A (r + A.blue_to_red * b) (g + A.blue_to_green * b))) :
    calculate_winner (n + 1) A r g b = some none := by
  rcases h with ⟨h1, h2, heq⟩ | ⟨h1, h2, heq⟩ | ⟨h1, h2, heq⟩
  · rw [third_red_eval h1 h2]
    unfold direct2cp
    rw [if_neg (not_gtA_of_eqA (eqA_symm heq)), if_neg (not_gtA_of_eqA heq)]
  · rw [third_green_eval h1 h2]
    unfold direct2cp
    rw [if_neg (not_gtA_of_eqA (eqA_symm heq)), if_neg (not_gtA_of_eqA heq)]
  · rw [third_blue_eval h1 h2]
    unfold direct2cp
    rw [if_neg (not_gtA_of_eqA (eqA_symm heq)), if_neg (not_gtA_of_eqA heq)]

/-- Claim C4, witness: with red outflows split evenly, redistributing
red's 0.20 from `(0.20, 0.40, 0.40)` gives both survivors exactly 0.50
and the resolver reports a tie. -/
theorem c4_witness :
    calculate_winner 1 cfgEven (1/5) (2/5) (2/5) = some none :=
  c4_marginal_redistribution_tie cfgEven 0 (1/5) (2/5) (2/5)
    (Or.inl ⟨ltA_num (by norm_num [cfgEven, cfg0]) (by norm_num [cfgEven, cfg0])
        (by norm_num) (by norm_num) (by norm_num) (by norm_num),
      ltA_num (by norm_num [cfgEven, cfg0]) (by norm_num [cfgEven, cfg0])
        (by norm_num) (by norm_num) (by norm_num) (by norm_num),
      eqA_of_close (by norm_num [cfgEven, cfg0]) (by norm_num [cfgEven, cfg0])⟩)

/-- Claim C5: with the default flows and viewport [0.2, 0.6],
`draw_lines` produces the four polylines explicitly; each of the three
flow-dependent polylines consists of non-empty clipped segments lying
inside the viewport, the diagonal's endpoints lie inside too, and the
red-green polyline ends at the terpoint (1/3, 1/3) where the red-blue
polyline begins. -/
theorem c5_boundaries :
    draw_lines cfg0 =
      { red_green := [some ((1/5, 11/25), (5/17, 7/17)),
                      some ((5/17, 7/17), (1/3, 1/3))]
        red_blue := [some ((1/3, 1/3), (4/9, 5/18)),
                     some ((4/9, 5/18), (23/50, 1/5))]
        blue_green := [some ((1/3, 1/3), (4/9, 5/18)),
                       some ((4/9, 5/18), (1/2, 1/2))]
        top_right := ((2/5, 3/5), (3/5, 2/5)) } ∧
    (∀ s ∈ (draw_lines cfg0).red_green, segOK cfg0 s) ∧
    (draw_lines cfg0).red_green ≠ [] ∧
    (∀ s ∈ (draw_lines cfg0).red_blue, segOK cfg0 s) ∧
    (draw_lines cfg0).red_blue ≠ [] ∧
    (∀ s ∈ (draw_lines cfg0).blue_green, segOK cfg0 s) ∧
    (draw_lines cfg0).blue_green ≠ [] ∧
    inViewport cfg0 (draw_lines cfg0).top_right.1 ∧
    inViewport cfg0 (draw_lines cfg0).top_right.2 ∧
    (∃ q1, (draw_lines cfg0).red_green =
      [q1, some ((5/17, 7/17), (1/3, 1/3))]) ∧
    (∃ q2, (draw_lines cfg0).red_blue =
      [some ((1/3, 1/3), (4/9, 5/18)), q2]) := by
  refine ⟨draw_lines_cfg0, ?_, ?_, ?_, ?_, ?_, ?_, ?_, ?_, ?_, ?_⟩
  · rw [draw_lines_cfg0]
    intro s hs
    simp only [List.mem_cons, List.mem_singleton, List.not_mem_nil, or_false] at hs
    rcases hs with rfl | rfl <;>
      exact ⟨_, rfl, by norm_num [inViewport, cfg0], by norm_num [inViewport, cfg0]⟩
  · rw [draw_lines_cfg0]; simp
  · rw [draw_lines_cfg0]
    intro s hs
    simp only [List.mem_cons, List.mem_singleton, List.not_mem_nil, or_false] at hs
    rcases hs with rfl | rfl <;>
      exact ⟨_, rfl, by norm_num [inViewport, cfg0], by norm_num [inViewport, cfg0]⟩
  · rw [draw_lines_cfg0]; simp
  · rw [draw_lines_cfg0]
    intro s hs
    simp only [List.mem_cons, List.mem_singleton, List.not_mem_nil, or_false] at hs
    rcases hs with rfl | rfl <;>
      exact ⟨_, rfl, by norm_num [inViewport, cfg0], by norm_num [inViewport, cfg0]⟩
  · rw [draw_lines_cfg0]; simp
  · rw [draw_lines_cfg0]; norm_num [inViewport, cfg0]
  · rw [draw_lines_cfg0]; norm_num [inViewport, cfg0]
  · rw [draw_lines_cfg0]; exact ⟨_, rfl⟩
  · rw [draw_lines_cfg0]; exact ⟨_, rfl⟩

/-- Claim C6: the clipper recomputes a violated second endpoint only
when `x0 > stop` (source line 234), not when `x1 > stop`.  For the
segment (0.4, 0.4)-(0.8, 0.5) on viewport [0.2, 0.6], `x1` violates
the right bound while `x0` does not, so the returned second endpoint
(0.6, 0.5) keeps the raw clamp of `y1` instead of the line-equation
value m·stop + c = 0.45, and thus lies off the segment. -/
theorem c6_clip_typo :
    line cfg0 (2/5) (2/5) (4/5) (1/2) = some ((2/5, 2/5), (3/5, 1/2)) ∧
    ((4:ℚ)/5 > cfg0.stop ∧ ¬ ((2:ℚ)/5 > cfg0.stop)) ∧
    ((1:ℚ)/2 ≠
      ((1/2 - 2/5)/(4/5 - 2/5)) * cfg0.stop +
        (2/5 - ((1/2 - 2/5)/(4/5 - 2/5)) * (2/5))) :=
  ⟨eval_line_bug, ⟨by norm_num [cfg0], by norm_num [cfg0]⟩, by norm_num [cfg0]⟩

/-- Claim C7, counterexample: the triple (0.9, 0.2, 0.1) does not sum
to 1, yet `calculate_winner` classifies it and returns
`Win(RED, 0.97)` — there is no `InvalidInput` rejection. -/
theorem c7_counterexample :
    ((9:ℚ)/10 + 1/5 + 1/10 ≠ 1) ∧
    calculate_winner 1 cfg0 (9/10) (1/5) (1/10) =
      some (some (Party.RED, 97/100)) :=
  ⟨by norm_num, eval_invalid⟩

/-- Claim C7, amended: `calculate_winner` performs no input validation
at all: any triple — whether or not it sums to 1 or has components in
[0,1] — is classified by the same case analysis on the raw shares, with
no renormalisation and no error outcome. -/
theorem c7_no_validation (A : Cfg) (n : ℕ) (r g b : ℚ)
    (h1 : ltA A b g) (h2 : ltA A b r)
    (h3 : gtA A (r + A.blue_to_red * b) (g + A.blue_to_green * b)) :
    calculate_winner (n + 1) A r g b =
      some (some (Party.RED, r + A.blue_to_red * b)) := by
  rw [third_blue_eval h1 h2]
  unfold direct2cp
  rw [if_pos h3]

/-- Claim C7, witness: the amended behaviour at the invalid triple
(0.9, 0.2, 0.1). -/
theorem c7_witness :
    ((9:ℚ)/10 + 1/5 + 1/10 ≠ 1) ∧
    calculate_winner 1 cfg0 (9/10) (1/5) (1/10) =
      some (some (Party.RED, 9/10 + cfg0.blue_to_red * (1/10))) :=
  ⟨by norm_num,
   c7_no_validation cfg0 0 (9/10) (1/5) (1/10)
     (ltA_num cfg0_step (by norm_num [cfg0]) (by norm_num) (by norm_num)
       (by norm_num) (by norm_num))
     (ltA_num cfg0_step (by norm_num [cfg0]) (by norm_num) (by norm_num)
       (by norm_num) (by norm_num))
     (gtA_num cfg0_step (by norm_num [cfg0]) (by norm_num [cfg0]) (by norm_num [cfg0])
       (by norm_num [cfg0]) (by norm_num [cfg0]))⟩

/-- Claim C8: after `validate_args`, every preference-flow ratio lies
in [0,1] and each source party's outgoing pair sums to at most 1, for
every input configuration.  (The configuration is never mutated
afterwards: `calculate_winner`, `line` and `draw_lines` pass it
unchanged, as is visible in their definitions.) -/
theorem c8_validate_flow_invariant (A : Cfg) :
    (0 ≤ (validate_args A).red_to_green ∧ (validate_args A).red_to_green ≤ 1) ∧
    (0 ≤ (validate_args A).red_to_blue ∧ (validate_args A).red_to_blue ≤ 1) ∧
    (validate_args A).red_to_green + (validate_args A).red_to_blue ≤ 1 ∧
    (0 ≤ (validate_args A).green_to_red ∧ (validate_args A).green_to_red ≤ 1) ∧
    (0 ≤ (validate_args A).green_to_blue ∧ (validate_args A).green_to_blue ≤ 1) ∧
    (validate_args A).green_to_red + (validate_args A).green_to_blue ≤ 1 ∧
    (0 ≤ (validate_args A).blue_to_red ∧ (validate_args A).blue_to_red ≤ 1) ∧
    (0 ≤ (validate_args A).blue_to_green ∧ (validate_args A).blue_to_green ≤ 1) ∧
    (validate_args A).blue_to_green + (validate_args A).blue_to_red ≤ 1 := by
  obtain ⟨hR1, hR2, hRs⟩ :=
    norm_pair (clamp01_bounds A.red_to_green) (clamp01_bounds A.red_to_blue)
  obtain ⟨hG1, hG2, hGs⟩ :=
    norm_pair (clamp01_bounds A.green_to_red) (clamp01_bounds A.green_to_blue)
  obtain ⟨hB1, hB2, hBs⟩ :=
    norm_pair (clamp01_bounds A.blue_to_green) (clamp01_bounds A.blue_to_red)
  unfold validate_args
  exact ⟨hR1, hR2, hRs, hG1, hG2, hGs, hB2, hB1, hBs⟩

/-- Claim C9, counterexample: at the valid triple
(0.3340, 0.3326, 0.3334) with the default flows, the code returns
`Win(RED, 0.56668)`; consistently swapping Green and Blue (shares and
flows) and re-running returns a tie, not the relabeled win — the tie
guards compare only one of the tied shares against the leader, which
breaks symmetry when the leader is within tolerance of the other tied
share. -/
theorem c9_counterexample :
    ((3340:ℚ)/10000 + 3326/10000 + 3334/10000 = 1) ∧
    calculate_winner 2 cfg0 (3340/10000) (3326/10000) (3334/10000) =
      some (some (Party.RED, 56668/100000)) ∧
    calculate_winner 2 (permCfg P3.sgb cfg0) (3340/10000) (3334/10000) (3326/10000) =
      some none ∧
    (some none : FuelResult) ≠
      Option.map (Option.map (fun w => (permParty P3.sgb w.1, w.2)))
        (some (some (Party.RED, (56668:ℚ)/100000))) :=
  ⟨by norm_num, eval_c9_lhs, eval_c9_rhs, by simp⟩

/-- Claim C9, amended: relabeling equivariance does hold on the
strict-third path: whenever some party is strictly (beyond tolerance)
third, applying any of the six consistent relabelings to the shares and
the flows makes `calculate_winner` return exactly the relabeled result
with the same margin (and a within-tolerance 2CP tie maps to a tie).
Near-ties for last place can break the symmetry, as the counterexample
shows. -/
theorem c9_strict_third_equivariance (p : P3) (n : ℕ) (A : Cfg) (r g b : ℚ)
    (h : StrictThird A r g b) :
    calculate_winner (n + 1) (permCfg p A) (permShares p r g b).1
      (permShares p r g b).2.1 (permShares p r g b).2.2 =
    Option.map (Option.map (fun w => (permParty p w.1, w.2)))
      (calculate_winner (n + 1) A r g b) := by
  rcases h with ⟨h1, h2⟩ | ⟨h1, h2⟩ | ⟨h1, h2⟩ <;> cases p <;>
    dsimp only [permShares]
  · rw [third_red_eval (ltA_permCfg h1) (ltA_permCfg h2),
        third_red_eval h1 h2, direct2cp_map]
    rfl
  · rw [third_red_eval (ltA_permCfg h2) (ltA_permCfg h1),
        third_red_eval h1 h2, direct2cp_map, direct2cp_swap]
    rfl
  · rw [third_green_eval (ltA_permCfg h1) (ltA_permCfg h2),
        third_red_eval h1 h2, direct2cp_map]
    rfl
  · rw [third_blue_eval (ltA_permCfg h1) (ltA_permCfg h2),
        third_red_eval h1 h2, direct2cp_map, direct2cp_swap]
    rfl
  · rw [third_green_eval (ltA_permCfg h2) (ltA_permCfg h1),
        third_red_eval h1 h2, direct2cp_map, direct2cp_swap]
    rfl
  · rw [third_blue_eval (ltA_permCfg h2) (ltA_permCfg h1),
        third_red_eval h1 h2, direct2cp_map]
    rfl
  · rw [third_green_eval (ltA_permCfg h1) (ltA_permCfg h2),
        third_green_eval h1 h2, direct2cp_map]
    rfl
  · rw [third_blue_eval (ltA_permCfg h2) (ltA_permCfg h1),
        third_green_eval h1 h2, direct2cp_map]
    rfl
  · rw [third_red_eval (ltA_permCfg h1) (ltA_permCfg h2),
        third_green_eval h1 h2, direct2cp_map]
    rfl
  · rw [third_green_eval (ltA_permCfg h2) (ltA_permCfg h1),
        third_green_eval h1 h2, direct2cp_map, direct2cp_swap]
    rfl
  · rw [third_blue_eval (ltA_permCfg h1) (ltA_permCfg h2),
        third_green_eval h1 h2, direct2cp_map, direct2cp_swap]
    rfl
  · rw [third_red_eval (ltA_permCfg h2) (ltA_permCfg h1),
        third_green_eval h1 h2, direct2cp_map, direct2cp_swap]
    rfl
  · rw [third_blue_eval (ltA_permCfg h1) (ltA_permCfg h2),
        third_blue_eval h1 h2, direct2cp_map]
    rfl
  · rw [third_green_eval (ltA_permCfg h2) (ltA_permCfg h1),
        third_blue_eval h1 h2, direct2cp_map]
    rfl
  · rw [third_blue_eval (ltA_permCfg h2) (ltA_permCfg h1),
        third_blue_eval h1 h2, direct2cp_map, direct2cp_swap]
    rfl
  · rw [third_red_eval (ltA_permCfg h1) (ltA_permCfg h2),
        third_blue_eval h1 h2, direct2cp_map, direct2cp_swap]
    rfl
  · rw [third_red_eval (ltA_permCfg h2) (ltA_permCfg h1),
        third_blue_eval h1 h2, direct2cp_map]
    rfl
  · rw [third_green_eval (ltA_permCfg h1) (ltA_permCfg h2),
        third_blue_eval h1 h2, direct2cp_map, direct2cp_swap]
    rfl

/-- Claim C9, witness: at (0.45, 0.30, 0.25) Blue is strictly third and
swapping Green and Blue yields exactly the relabeled result. -/
theorem c9_witness :
    StrictThird cfg0 (45/100) (30/100) (25/100) ∧
    calculate_winner 1 (permCfg P3.sgb cfg0)
      (permShares P3.sgb (45/100) (30/100) (25/100)).1
      (permShares P3.sgb (45/100) (30/100) (25/100)).2.1
      (permShares P3.sgb (45/100) (30/100) (25/100)).2.2 =
    Option.map (Option.map (fun w => (permParty P3.sgb w.1, w.2)))
      (calculate_winner 1 cfg0 (45/100) (30/100) (25/100)) := by
  have hst : StrictThird cfg0 (45/100) (30/100) (25/100) :=
    Or.inr (Or.inr ⟨ltA_num cfg0_step (by norm_num [cfg0]) (by norm_num)
        (by norm_num) (by norm_num) (by norm_num),
      ltA_num cfg0_step (by norm_num [cfg0]) (by norm_num) (by norm_num)
        (by norm_num) (by norm_num)⟩)
  exact ⟨hst, c9_strict_third_equivariance P3.sgb 0 cfg0 (45/100) (30/100)
    (25/100) hst⟩

/-- Claim C10: the casting-vote recursion does not terminate on every
input.  At shares (0.499755859375, 0.250244140625, 0.25) with step
0.00244140625 — all exactly representable IEEE doubles, with tolerance
step/10 = 2⁻¹² exact — the tied shares differ by exactly the tolerance:
the exclude-Green perturbation swaps them and its own exclude-Blue
perturbation swaps them back, so the Python recursion never returns
(it raises `RecursionError`), and the embedded recursion exhausts any
amount of fuel. -/
theorem c10_knife_edge_divergence :
    cfgDyadic.step = 5/2048 ∧
    ((2047:ℚ)/4096 + 1025/4096 + 1024/4096 = 1) ∧
    Diverges cfgDyadic (2047/4096) (1025/4096) (1024/4096) :=
  ⟨rfl, by norm_num, fun n => (diverge_aux n).1⟩

end ThreePP
